import Mathlib

/-!
# Flow DSL validator — verification development

Shallow embedding of the `@fusionflow/flow-dsl` package:

* `types.ts` — the zod schema vocabulary (`FlowSchema` and all nested
  variant schemas), embedded as a typed data model plus executable
  coercion functions `XSchema : Json → ZRes X` mirroring
  `XSchema.safeParse`;
* `schema.ts` — the legacy nodes/edges vocabulary (re-exported by
  `index.ts` as `LegacyFlowSchema`), the schema `parser.ts` binds;
* `validate.ts` — the `FlowValidator` class and the `validateFlow` /
  `isFlowValid` entry points, embedded as pure functions;
* `parser.ts` — `FlowParser.parseYaml` / `parseJson` / `parseObject`;
* `scripts/validate-examples.js` — `validateYamlFile` (the CI wrapper).

JavaScript numbers are modelled as `ℚ` (every numeric literal appearing
in the schemas and in input documents is an exact decimal); JS objects
coming out of `JSON.parse` are modelled by the `Json` inductive.
-/

namespace FusionFlow

/-- A parsed JSON/YAML value, the `unknown` input that `validateFlow`
and `FlowSchema.safeParse` receive. -/
inductive Json where
  | null
  | bool (b : Bool)
  | num (n : ℚ)
  | str (s : String)
  | arr (elems : List Json)
  | obj (fields : List (String × Json))
deriving Repr, Inhabited

/-- One element of a zod issue path: an object key or an array index. -/
inductive PathElem where
  | key (k : String)
  | idx (i : Nat)
deriving Repr, DecidableEq

/-- A zod issue, as consumed by `FlowValidator.addSchemaErrors` (which
reads only `path` and `message`). -/
structure ZodIssue where
  path : List PathElem
  message : String
deriving Repr, DecidableEq

/-- Result of a zod `safeParse`: either the coerced value or the full
accumulated issue list (zod collects issues across all object fields and
array elements in synchronous parsing). -/
abbrev ZRes (α : Type) := Except (List ZodIssue) α

/-- Issue-accumulating applicative composition: both argument failures
are kept, mirroring zod collecting issues from every field of an object. -/
def zapp {α β : Type} : ZRes (α → β) → ZRes α → ZRes β
  | .ok f, .ok a => .ok (f a)
  | .error e₁, .error e₂ => .error (e₁ ++ e₂)
  | .error e, .ok _ => .error e
  | .ok _, .error e => .error e

def zpure {α : Type} (a : α) : ZRes α := .ok a

/-- Human-readable name of a JSON value kind, used in zod
`invalid_type` messages. -/
def jsonTypeName : Json → String
  | .null => "null"
  | .bool _ => "boolean"
  | .num _ => "number"
  | .str _ => "string"
  | .arr _ => "array"
  | .obj _ => "object"

/-- Prefix every issue path with one element (descending into an object
key or array index). -/
def prefixIssues {α : Type} (e : PathElem) : ZRes α → ZRes α
  | .ok a => .ok a
  | .error es => .error (es.map (fun i => { i with path := e :: i.path }))

/-- JS object property lookup (`o[k]`); `JSON.parse` output has at most
one occurrence of each key, modelled by first-match lookup. -/
def getField (o : List (String × Json)) (k : String) : Option Json :=
  (o.find? (fun p => p.1 = k)).map (·.2)

/-- Required object field: a missing key is zod's `Required` issue. -/
def reqField {α : Type} (o : List (String × Json)) (k : String)
    (p : Json → ZRes α) : ZRes α :=
  match getField o k with
  | none => .error [⟨[.key k], "Required"⟩]
  | some v => prefixIssues (.key k) (p v)

/-- Optional object field (`.optional()`): a missing key parses to
`none`; a present value (including `null`) must satisfy the inner
schema. -/
def optField {α : Type} (o : List (String × Json)) (k : String)
    (p : Json → ZRes α) : ZRes (Option α) :=
  match getField o k with
  | none => .ok none
  | some v => prefixIssues (.key k) (Except.map some (p v))

/-- Defaulted object field (`.default(d)`): a missing key yields the
default without running the inner schema. -/
def defField {α : Type} (o : List (String × Json)) (k : String)
    (p : Json → ZRes α) (d : α) : ZRes α :=
  match getField o k with
  | none => .ok d
  | some v => prefixIssues (.key k) (p v)

/-- `z.string()`. -/
def zstring : Json → ZRes String
  | .str s => .ok s
  | j => .error [⟨[], "Expected string, received " ++ jsonTypeName j⟩]

/-- `z.number()`. -/
def znumber : Json → ZRes ℚ
  | .num n => .ok n
  | j => .error [⟨[], "Expected number, received " ++ jsonTypeName j⟩]

/-- `z.boolean()`. -/
def zboolean : Json → ZRes Bool
  | .bool b => .ok b
  | j => .error [⟨[], "Expected boolean, received " ++ jsonTypeName j⟩]

/-- `z.number().min(lo).max(hi)`: the type check first, then both range
checks, each contributing its own issue. -/
def znumMinMax (lo hi : ℚ) (j : Json) : ZRes ℚ :=
  match znumber j with
  | .error e => .error e
  | .ok q =>
    let issues :=
      (if q < lo then [(⟨[], "Number must be greater than or equal to " ++ toString lo⟩ : ZodIssue)] else [])
      ++ (if hi < q then [(⟨[], "Number must be less than or equal to " ++ toString hi⟩ : ZodIssue)] else [])
    if issues.isEmpty then .ok q else .error issues

/-- `z.enum([...])`: a string drawn from a closed option list. -/
def zenum (options : List String) (j : Json) : ZRes String :=
  match j with
  | .str s => if s ∈ options then .ok s else .error [⟨[], "Invalid enum value"⟩]
  | _ => .error [⟨[], "Expected enum value, received " ++ jsonTypeName j⟩]

/-- `z.literal(s)` for the string discriminators. -/
def zliteral (s : String) (j : Json) : ZRes String :=
  match j with
  | .str t => if t = s then .ok t else .error [⟨[], "Invalid literal value"⟩]
  | _ => .error [⟨[], "Expected literal, received " ++ jsonTypeName j⟩]

/-- `z.unknown()`: accepts any value unchanged. -/
def zunknown (j : Json) : ZRes Json := .ok j

/-- Element-wise array parsing with index paths (helper for `zarray`). -/
def zarrayAux {α : Type} (p : Json → ZRes α) (i : Nat) : List Json → ZRes (List α)
  | [] => .ok []
  | x :: rest =>
    zapp (zapp (zpure List.cons) (prefixIssues (.idx i) (p x))) (zarrayAux p (i + 1) rest)

/-- `z.array(inner)`. -/
def zarray {α : Type} (p : Json → ZRes α) : Json → ZRes (List α)
  | .arr xs => zarrayAux p 0 xs
  | j => .error [⟨[], "Expected array, received " ++ jsonTypeName j⟩]

/-- Value-wise record parsing with key paths (helper for `zrecord`). -/
def zrecordAux {α : Type} (p : Json → ZRes α) :
    List (String × Json) → ZRes (List (String × α))
  | [] => .ok []
  | (k, v) :: rest =>
    zapp (zapp (zpure (fun a r => (k, a) :: r)) (prefixIssues (.key k) (p v)))
      (zrecordAux p rest)

/-- `z.record(inner)`: an object whose every value satisfies `inner`. -/
def zrecord {α : Type} (p : Json → ZRes α) : Json → ZRes (List (String × α))
  | .obj o => zrecordAux p o
  | j => .error [⟨[], "Expected object, received " ++ jsonTypeName j⟩]

end FusionFlow

namespace FusionFlow

/-! ## Typed data model (`types.ts`)

One Lean structure per zod object schema; defaulted fields are plain
(the default has been applied during coercion), `.optional()` fields are
`Option`. Enumerations are carried as their string value, constrained by
`zenum` during coercion. -/

structure Compliance where
  gdpr : Bool
  hipaa : Bool
  soc2 : Bool
  pci : Bool
  dataRetention : Option ℚ
  dataClassification : String
deriving Repr

structure RBAC where
  roles : List String
  permissions : List String
  tenants : Option (List String)
deriving Repr

structure Owner where
  name : String
  email : String
  team : Option String
  role : Option String
deriving Repr

structure Metadata where
  name : String
  version : String
  description : Option String
  tenant : Option String
  tags : List String
  owners : List Owner
  compliance : Option Compliance
  rbac : Option RBAC
  createdAt : Option String
  updatedAt : Option String
  createdBy : Option String
  updatedBy : Option String
deriving Repr

/-- The inline `auth` object of `HttpTriggerSchema`. -/
structure HttpAuth where
  type : String
  config : Option (List (String × String))
deriving Repr

/-- The inline `rateLimit` object of `HttpTriggerSchema`. -/
structure HttpRateLimit where
  requests : ℚ
  window : ℚ
deriving Repr

structure HttpTrigger where
  method : String
  path : String
  headers : Option (List (String × String))
  auth : Option HttpAuth
  rateLimit : Option HttpRateLimit
deriving Repr

structure ScheduleTrigger where
  cron : String
  timezone : String
  startDate : Option String
  endDate : Option String
deriving Repr

structure KafkaTrigger where
  topic : String
  groupId : String
  bootstrapServers : List String
  autoCommit : Bool
  autoOffsetReset : String
  keyDeserializer : String
  valueDeserializer : String
deriving Repr

structure MqttTrigger where
  topic : String
  qos : ℚ
  broker : String
  clientId : String
  username : Option String
  password : Option String
deriving Repr

structure SftpTrigger where
  host : String
  port : ℚ
  username : String
  password : Option String
  privateKey : Option String
  path : String
  pattern : String
  pollInterval : ℚ
deriving Repr

structure JdbcTrigger where
  url : String
  username : String
  password : String
  query : String
  pollInterval : ℚ
  driver : String
deriving Repr

structure FileWatchTrigger where
  path : String
  pattern : String
  events : List String
  recursive : Bool
deriving Repr

/-- `TriggerSchema = z.discriminatedUnion('type', [...])`. -/
inductive Trigger where
  | http (t : HttpTrigger)
  | schedule (t : ScheduleTrigger)
  | kafka (t : KafkaTrigger)
  | mqtt (t : MqttTrigger)
  | sftp (t : SftpTrigger)
  | jdbc (t : JdbcTrigger)
  | fileWatch (t : FileWatchTrigger)
deriving Repr

/-- The inline `backoff` object shared by several retry configurations. -/
structure Backoff where
  type : String
  initialDelay : ℚ
  maxDelay : ℚ
  multiplier : ℚ
deriving Repr

/-- The inline `retry` object of `ConnectorStepSchema` / `RestTransportSchema`. -/
structure RetryConfig where
  attempts : ℚ
  backoff : Option Backoff
deriving Repr

structure ConnectorStep where
  connectorRef : String
  operation : String
  config : Option (List (String × Json))
  timeout : Option ℚ
  retry : Option RetryConfig
deriving Repr

/-- `MapStepSchema`; `vars` models its `variables` field (the name
`variables` is reserved in Lean). -/
structure MapStep where
  expression : String
  vars : Option (List (String × Json))
  outputFormat : String
deriving Repr

structure ScriptStep where
  language : String
  code : String
  timeout : ℚ
  sandbox : Bool
  imports : Option (List String)
deriving Repr

structure EnrichStep where
  source : String
  key : String
  fields : Option (List String)
  timeout : ℚ
deriving Repr

/-- One entry of `BranchStepSchema.conditions`. -/
structure BranchCondition where
  condition : String
  nextStep : String
deriving Repr

structure BranchStep where
  conditions : List BranchCondition
  default : Option String
deriving Repr

structure RetryStep where
  maxAttempts : ℚ
  backoff : Backoff
  retryOn : List String
deriving Repr

structure DlqStep where
  reason : String
  metadata : Option (List (String × Json))
deriving Repr

structure ThrottleStep where
  rate : ℚ
  burst : Option ℚ
  strategy : String
deriving Repr

structure CheckpointStep where
  name : String
  data : Option (List (String × Json))
deriving Repr

structure CircuitBreakerStep where
  failureThreshold : ℚ
  recoveryTimeout : ℚ
  halfOpenMaxCalls : ℚ
  monitorInterval : ℚ
deriving Repr

/-- `StepSchema = z.discriminatedUnion('type', [...])`. -/
inductive Step where
  | connector (s : ConnectorStep)
  | map (s : MapStep)
  | script (s : ScriptStep)
  | enrich (s : EnrichStep)
  | branch (s : BranchStep)
  | retry (s : RetryStep)
  | dlq (s : DlqStep)
  | throttle (s : ThrottleStep)
  | checkpoint (s : CheckpointStep)
  | circuitBreaker (s : CircuitBreakerStep)
deriving Repr

structure RestTransport where
  method : String
  url : String
  headers : Option (List (String × String))
  timeout : ℚ
  retry : Option RetryConfig
deriving Repr

structure SoapTransport where
  url : String
  action : String
  envelope : String
  timeout : ℚ
  headers : Option (List (String × String))
deriving Repr

/-- `GraphqlTransportSchema`; `vars` models its `variables` field. -/
structure GraphqlTransport where
  url : String
  query : String
  vars : Option (List (String × Json))
  headers : Option (List (String × String))
  timeout : ℚ
deriving Repr

/-- The inline `connectionPool` object of `JdbcTransportSchema`. -/
structure ConnectionPool where
  min : ℚ
  max : ℚ
deriving Repr

structure JdbcTransport where
  url : String
  username : String
  password : String
  query : String
  parameters : Option (List Json)
  timeout : ℚ
  connectionPool : Option ConnectionPool
deriving Repr

structure KafkaTransport where
  topic : String
  bootstrapServers : List String
  keySerializer : String
  valueSerializer : String
  acks : String
  retries : ℚ
deriving Repr

structure MqttTransport where
  topic : String
  qos : ℚ
  broker : String
  clientId : String
  username : Option String
  password : Option String
  retain : Bool
deriving Repr

structure SftpTransport where
  host : String
  port : ℚ
  username : String
  password : Option String
  privateKey : Option String
  path : String
  mode : String
deriving Repr

structure FsTransport where
  path : String
  mode : String
  encoding : String
  createDir : Bool
deriving Repr

structure CustomTransport where
  name : String
  config : List (String × Json)
deriving Repr

/-- `TransportSchema = z.discriminatedUnion('type', [...])`. -/
inductive Transport where
  | rest (t : RestTransport)
  | soap (t : SoapTransport)
  | graphql (t : GraphqlTransport)
  | jdbc (t : JdbcTransport)
  | kafka (t : KafkaTransport)
  | mqtt (t : MqttTransport)
  | sftp (t : SftpTransport)
  | fs (t : FsTransport)
  | custom (t : CustomTransport)
deriving Repr

structure QosPolicy where
  priority : String
  timeout : Option ℚ
  retry : Option RetryConfig
deriving Repr

structure IdempotencyPolicy where
  key : String
  ttl : ℚ
  strategy : String
deriving Repr

structure MtlsPolicy where
  certPath : String
  keyPath : String
  caPath : Option String
  verify : Bool
deriving Repr

structure OpaPolicy where
  policyRef : String
  data : Option (List (String × Json))
  input : Option (List (String × Json))
deriving Repr

structure SecretsPolicy where
  vaultPaths : List String
  refreshInterval : ℚ
deriving Repr

/-- `PolicySchema = z.discriminatedUnion('type', [...])`. -/
inductive Policy where
  | qos (p : QosPolicy)
  | idempotency (p : IdempotencyPolicy)
  | mtls (p : MtlsPolicy)
  | opa (p : OpaPolicy)
  | secrets (p : SecretsPolicy)
deriving Repr

/-- The inline `sampling` object of `TraceConfigSchema`. -/
structure TraceSampling where
  rate : ℚ
  strategy : String
deriving Repr

structure TraceConfig where
  propagation : String
  sampling : Option TraceSampling
deriving Repr

structure PayloadSampling where
  enabled : Bool
  rate : ℚ
  maxSize : ℚ
  fields : Option (List String)
deriving Repr

/-- The inline `metrics` object of `ObservabilitySchema`. -/
structure MetricsConfig where
  enabled : Bool
  interval : ℚ
deriving Repr

/-- The inline `logs` object of `ObservabilitySchema`. -/
structure LogsConfig where
  level : String
  structured : Bool
deriving Repr

structure Observability where
  traceId : Option TraceConfig
  sampleRate : ℚ
  payloadSampling : Option PayloadSampling
  metrics : Option MetricsConfig
  logs : Option LogsConfig
deriving Repr

/-- One entry of `FlowSchema.steps`: the step envelope carrying id,
name, variant payload, transport, policies and graph edges. -/
structure FlowStep where
  id : String
  name : String
  description : Option String
  step : Step
  transport : Option Transport
  policies : Option (List Policy)
  next : Option (List String)
  error : Option String
deriving Repr

/-- The typed root document (`FlowSchema`); the `$schema` key is the
Lean field `schemaUrl`. -/
structure Flow where
  schemaUrl : String
  metadata : Metadata
  triggers : Option (List Trigger)
  steps : List FlowStep
  observability : Option Observability
deriving Repr

end FusionFlow

namespace FusionFlow

/-! ## Coercion (`XSchema.safeParse`)

One executable function per zod schema. Object schemas destructure the
field list and combine the per-field results with the accumulating
applicative `zapp`; discriminated unions dispatch on the `type` field. -/

/-- `z.object(...)` entry: non-objects are an `invalid_type` issue. -/
def zobj {α : Type} (f : List (String × Json) → ZRes α) : Json → ZRes α
  | .obj o => f o
  | j => .error [⟨[], "Expected object, received " ++ jsonTypeName j⟩]

/-- Numeric value of a digit run (used for fractional seconds). -/
def digitsVal (ds : List Char) : Nat :=
  ds.foldl (fun n c => n * 10 + (c.toNat - 48)) 0

/-- A character legal anywhere in the local part of a zod email
(alphanumeric, underscore, apostrophe, plus, hyphen, dot). -/
def emailLocalChar (c : Char) : Bool :=
  c.isAlphanum || c = '_' || c.toNat = 39 || c = '+' || c = '-' || c = '.'

/-- A character legal as the final character of the local part. -/
def emailLastLocalChar (c : Char) : Bool :=
  c.isAlphanum || c = '_' || c = '+' || c = '-'

/-- Whether two consecutive dots occur. -/
def hasDoubleDot : List Char → Bool
  | '.' :: '.' :: _ => true
  | _ :: rest => hasDoubleDot rest
  | [] => false

/-- One domain label before the TLD: leading alphanumeric, then
alphanumerics or hyphens. -/
def emailLabelOk (l : String) : Bool :=
  match l.data with
  | [] => false
  | c :: rest => c.isAlphanum && rest.all (fun d => d.isAlphanum || d = '-')

/-- The email pattern of `z.string().email()`: a non-empty local part
over the legal character set, not starting with a dot, no double dots,
not ending in a dot, then `@`, then at least one label and a purely
alphabetic TLD of length at least 2. -/
def emailOk (s : String) : Bool :=
  match s.splitOn "@" with
  | [loc, domain] =>
    (match loc.data with
     | [] => false
     | c :: _ =>
       c ≠ '.' && loc.data.dropLast.all emailLocalChar
         && (match loc.data.getLast? with
             | some l => emailLastLocalChar l
             | none => false))
    && !hasDoubleDot s.data
    && (match domain.splitOn "." with
        | [] => false
        | [_] => false
        | parts =>
          (match parts.getLast? with
           | some tld => tld.length ≥ 2 && tld.data.all Char.isAlpha
           | none => false)
          && parts.dropLast.all emailLabelOk)
  | _ => false

/-- `z.string().email()`. -/
def zemail (j : Json) : ZRes String :=
  match zstring j with
  | .error e => .error e
  | .ok s => if emailOk s then .ok s else .error [⟨[], "Invalid email"⟩]

/-- The fixed `YYYY-MM-DDTHH:MM:SS` prefix of an ISO 8601 UTC string. -/
def datetimePrefixOk : List Char → Bool
  | [y1, y2, y3, y4, '-', m1, m2, '-', d1, d2, 'T', h1, h2, ':', i1, i2, ':', s1, s2] =>
    [y1, y2, y3, y4, m1, m2, d1, d2, h1, h2, i1, i2, s1, s2].all Char.isDigit
  | _ => false

/-- The pattern of `z.string().datetime()`: the fixed prefix, then an
optional fractional-seconds group, then a literal `Z`. -/
def datetimeOk (s : String) : Bool :=
  datetimePrefixOk (s.data.take 19)
  && (match s.data.drop 19 with
      | ['Z'] => true
      | '.' :: rest =>
        (match rest.getLast? with
         | some 'Z' => !rest.dropLast.isEmpty && rest.dropLast.all Char.isDigit
         | _ => false)
      | _ => false)

/-- `z.string().datetime()`. -/
def zdatetime (j : Json) : ZRes String :=
  match zstring j with
  | .error e => .error e
  | .ok s => if datetimeOk s then .ok s else .error [⟨[], "Invalid datetime"⟩]

def ComplianceSchema : Json → ZRes Compliance := zobj fun o =>
  zpure Compliance.mk
    |> (zapp · (defField o "gdpr" zboolean false))
    |> (zapp · (defField o "hipaa" zboolean false))
    |> (zapp · (defField o "soc2" zboolean false))
    |> (zapp · (defField o "pci" zboolean false))
    |> (zapp · (optField o "dataRetention" znumber))
    |> (zapp · (defField o "dataClassification"
          (zenum ["public", "internal", "confidential", "restricted"]) "internal"))

def RBACSchema : Json → ZRes RBAC := zobj fun o =>
  zpure RBAC.mk
    |> (zapp · (defField o "roles" (zarray zstring) []))
    |> (zapp · (defField o "permissions"
          (zarray (zenum ["read", "write", "execute", "admin"])) ["read"]))
    |> (zapp · (optField o "tenants" (zarray zstring)))

def OwnerSchema : Json → ZRes Owner := zobj fun o =>
  zpure Owner.mk
    |> (zapp · (reqField o "name" zstring))
    |> (zapp · (reqField o "email" zemail))
    |> (zapp · (optField o "team" zstring))
    |> (zapp · (optField o "role" zstring))

def MetadataSchema : Json → ZRes Metadata := zobj fun o =>
  zpure Metadata.mk
    |> (zapp · (reqField o "name" zstring))
    |> (zapp · (defField o "version" zstring "1.0.0"))
    |> (zapp · (optField o "description" zstring))
    |> (zapp · (optField o "tenant" zstring))
    |> (zapp · (defField o "tags" (zarray zstring) []))
    |> (zapp · (defField o "owners" (zarray OwnerSchema) []))
    |> (zapp · (optField o "compliance" ComplianceSchema))
    |> (zapp · (optField o "rbac" RBACSchema))
    |> (zapp · (optField o "createdAt" zdatetime))
    |> (zapp · (optField o "updatedAt" zdatetime))
    |> (zapp · (optField o "createdBy" zstring))
    |> (zapp · (optField o "updatedBy" zstring))

/-- The inline `auth` object schema of `HttpTriggerSchema`. -/
def HttpAuthSchema : Json → ZRes HttpAuth := zobj fun o =>
  zpure HttpAuth.mk
    |> (zapp · (defField o "type" (zenum ["none", "basic", "bearer", "api-key"]) "none"))
    |> (zapp · (optField o "config" (zrecord zstring)))

/-- The inline `rateLimit` object schema of `HttpTriggerSchema`. -/
def HttpRateLimitSchema : Json → ZRes HttpRateLimit := zobj fun o =>
  zpure HttpRateLimit.mk
    |> (zapp · (reqField o "requests" znumber))
    |> (zapp · (reqField o "window" znumber))

def HttpTriggerSchema (o : List (String × Json)) : ZRes HttpTrigger :=
  zpure (fun _ method path headers auth rateLimit =>
      HttpTrigger.mk method path headers auth rateLimit)
    |> (zapp · (reqField o "type" (zliteral "http")))
    |> (zapp · (defField o "method" (zenum ["GET", "POST", "PUT", "DELETE", "PATCH"]) "POST"))
    |> (zapp · (reqField o "path" zstring))
    |> (zapp · (optField o "headers" (zrecord zstring)))
    |> (zapp · (optField o "auth" HttpAuthSchema))
    |> (zapp · (optField o "rateLimit" HttpRateLimitSchema))

def ScheduleTriggerSchema (o : List (String × Json)) : ZRes ScheduleTrigger :=
  zpure (fun _ cron timezone startDate endDate =>
      ScheduleTrigger.mk cron timezone startDate endDate)
    |> (zapp · (reqField o "type" (zliteral "schedule")))
    |> (zapp · (reqField o "cron" zstring))
    |> (zapp · (defField o "timezone" zstring "UTC"))
    |> (zapp · (optField o "startDate" zdatetime))
    |> (zapp · (optField o "endDate" zdatetime))

def KafkaTriggerSchema (o : List (String × Json)) : ZRes KafkaTrigger :=
  zpure (fun _ topic groupId bootstrapServers autoCommit autoOffsetReset kd vd =>
      KafkaTrigger.mk topic groupId bootstrapServers autoCommit autoOffsetReset kd vd)
    |> (zapp · (reqField o "type" (zliteral "kafka")))
    |> (zapp · (reqField o "topic" zstring))
    |> (zapp · (reqField o "groupId" zstring))
    |> (zapp · (reqField o "bootstrapServers" (zarray zstring)))
    |> (zapp · (defField o "autoCommit" zboolean true))
    |> (zapp · (defField o "autoOffsetReset" (zenum ["earliest", "latest"]) "earliest"))
    |> (zapp · (defField o "keyDeserializer" zstring
          "org.apache.kafka.common.serialization.StringDeserializer"))
    |> (zapp · (defField o "valueDeserializer" zstring
          "org.apache.kafka.common.serialization.StringDeserializer"))

def MqttTriggerSchema (o : List (String × Json)) : ZRes MqttTrigger :=
  zpure (fun _ topic qos broker clientId username password =>
      MqttTrigger.mk topic qos broker clientId username password)
    |> (zapp · (reqField o "type" (zliteral "mqtt")))
    |> (zapp · (reqField o "topic" zstring))
    |> (zapp · (defField o "qos" (znumMinMax 0 2) 1))
    |> (zapp · (reqField o "broker" zstring))
    |> (zapp · (reqField o "clientId" zstring))
    |> (zapp · (optField o "username" zstring))
    |> (zapp · (optField o "password" zstring))

def SftpTriggerSchema (o : List (String × Json)) : ZRes SftpTrigger :=
  zpure (fun _ host port username password privateKey path pattern pollInterval =>
      SftpTrigger.mk host port username password privateKey path pattern pollInterval)
    |> (zapp · (reqField o "type" (zliteral "sftp")))
    |> (zapp · (reqField o "host" zstring))
    |> (zapp · (defField o "port" znumber 22))
    |> (zapp · (reqField o "username" zstring))
    |> (zapp · (optField o "password" zstring))
    |> (zapp · (optField o "privateKey" zstring))
    |> (zapp · (reqField o "path" zstring))
    |> (zapp · (defField o "pattern" zstring "*"))
    |> (zapp · (defField o "pollInterval" znumber 60))

def JdbcTriggerSchema (o : List (String × Json)) : ZRes JdbcTrigger :=
  zpure (fun _ url username password query pollInterval driver =>
      JdbcTrigger.mk url username password query pollInterval driver)
    |> (zapp · (reqField o "type" (zliteral "jdbc")))
    |> (zapp · (reqField o "url" zstring))
    |> (zapp · (reqField o "username" zstring))
    |> (zapp · (reqField o "password" zstring))
    |> (zapp · (reqField o "query" zstring))
    |> (zapp · (defField o "pollInterval" znumber 60))
    |> (zapp · (reqField o "driver" zstring))

def FileWatchTriggerSchema (o : List (String × Json)) : ZRes FileWatchTrigger :=
  zpure (fun _ path pattern events recursive =>
      FileWatchTrigger.mk path pattern events recursive)
    |> (zapp · (reqField o "type" (zliteral "file-watch")))
    |> (zapp · (reqField o "path" zstring))
    |> (zapp · (defField o "pattern" zstring "*"))
    |> (zapp · (defField o "events" (zarray (zenum ["create", "modify", "delete"])) ["create"]))
    |> (zapp · (defField o "recursive" zboolean false))

def TriggerSchema (j : Json) : ZRes Trigger :=
  match j with
  | .obj o =>
    match getField o "type" with
    | some (.str "http") => Except.map Trigger.http (HttpTriggerSchema o)
    | some (.str "schedule") => Except.map Trigger.schedule (ScheduleTriggerSchema o)
    | some (.str "kafka") => Except.map Trigger.kafka (KafkaTriggerSchema o)
    | some (.str "mqtt") => Except.map Trigger.mqtt (MqttTriggerSchema o)
    | some (.str "sftp") => Except.map Trigger.sftp (SftpTriggerSchema o)
    | some (.str "jdbc") => Except.map Trigger.jdbc (JdbcTriggerSchema o)
    | some (.str "file-watch") => Except.map Trigger.fileWatch (FileWatchTriggerSchema o)
    | _ => .error [⟨[.key "type"], "Invalid discriminator value"⟩]
  | _ => .error [⟨[], "Expected object, received " ++ jsonTypeName j⟩]

end FusionFlow

namespace FusionFlow

/-- The inline `backoff` object schema shared by retry configurations. -/
def BackoffSchema : Json → ZRes Backoff := zobj fun o =>
  zpure Backoff.mk
    |> (zapp · (defField o "type" (zenum ["fixed", "exponential", "linear"]) "exponential"))
    |> (zapp · (defField o "initialDelay" znumber 1000))
    |> (zapp · (defField o "maxDelay" znumber 30000))
    |> (zapp · (defField o "multiplier" znumber 2))

/-- The inline `retry` object schema of `ConnectorStepSchema` and
`RestTransportSchema`. -/
def RetryConfigSchema : Json → ZRes RetryConfig := zobj fun o =>
  zpure RetryConfig.mk
    |> (zapp · (defField o "attempts" znumber 3))
    |> (zapp · (optField o "backoff" BackoffSchema))

def ConnectorStepSchema (o : List (String × Json)) : ZRes ConnectorStep :=
  zpure (fun _ connectorRef operation config timeout retry =>
      ConnectorStep.mk connectorRef operation config timeout retry)
    |> (zapp · (reqField o "type" (zliteral "connector")))
    |> (zapp · (reqField o "connectorRef" zstring))
    |> (zapp · (reqField o "operation" zstring))
    |> (zapp · (optField o "config" (zrecord zunknown)))
    |> (zapp · (optField o "timeout" znumber))
    |> (zapp · (optField o "retry" RetryConfigSchema))

def MapStepSchema (o : List (String × Json)) : ZRes MapStep :=
  zpure (fun _ expression vars outputFormat => MapStep.mk expression vars outputFormat)
    |> (zapp · (reqField o "type" (zliteral "map")))
    |> (zapp · (reqField o "expression" zstring))
    |> (zapp · (optField o "variables" (zrecord zunknown)))
    |> (zapp · (defField o "outputFormat" (zenum ["json", "xml", "csv"]) "json"))

def ScriptStepSchema (o : List (String × Json)) : ZRes ScriptStep :=
  zpure (fun _ language code timeout sandbox imports =>
      ScriptStep.mk language code timeout sandbox imports)
    |> (zapp · (reqField o "type" (zliteral "script")))
    |> (zapp · (reqField o "language" (zenum ["javascript", "python"])))
    |> (zapp · (reqField o "code" zstring))
    |> (zapp · (defField o "timeout" znumber 30))
    |> (zapp · (defField o "sandbox" zboolean true))
    |> (zapp · (optField o "imports" (zarray zstring)))

def EnrichStepSchema (o : List (String × Json)) : ZRes EnrichStep :=
  zpure (fun _ source key fields timeout => EnrichStep.mk source key fields timeout)
    |> (zapp · (reqField o "type" (zliteral "enrich")))
    |> (zapp · (reqField o "source" zstring))
    |> (zapp · (reqField o "key" zstring))
    |> (zapp · (optField o "fields" (zarray zstring)))
    |> (zapp · (defField o "timeout" znumber 10))

/-- One entry of the `conditions` array of `BranchStepSchema`. -/
def BranchConditionSchema : Json → ZRes BranchCondition := zobj fun o =>
  zpure BranchCondition.mk
    |> (zapp · (reqField o "condition" zstring))
    |> (zapp · (reqField o "nextStep" zstring))

def BranchStepSchema (o : List (String × Json)) : ZRes BranchStep :=
  zpure (fun _ conditions dflt => BranchStep.mk conditions dflt)
    |> (zapp · (reqField o "type" (zliteral "branch")))
    |> (zapp · (reqField o "conditions" (zarray BranchConditionSchema)))
    |> (zapp · (optField o "default" zstring))

def RetryStepSchema (o : List (String × Json)) : ZRes RetryStep :=
  zpure (fun _ maxAttempts backoff retryOn => RetryStep.mk maxAttempts backoff retryOn)
    |> (zapp · (reqField o "type" (zliteral "retry")))
    |> (zapp · (defField o "maxAttempts" znumber 3))
    |> (zapp · (reqField o "backoff" BackoffSchema))
    |> (zapp · (defField o "retryOn" (zarray zstring) ["*"]))

def DlqStepSchema (o : List (String × Json)) : ZRes DlqStep :=
  zpure (fun _ reason metadata => DlqStep.mk reason metadata)
    |> (zapp · (reqField o "type" (zliteral "dlq")))
    |> (zapp · (reqField o "reason" zstring))
    |> (zapp · (optField o "metadata" (zrecord zunknown)))

def ThrottleStepSchema (o : List (String × Json)) : ZRes ThrottleStep :=
  zpure (fun _ rate burst strategy => ThrottleStep.mk rate burst strategy)
    |> (zapp · (reqField o "type" (zliteral "throttle")))
    |> (zapp · (reqField o "rate" znumber))
    |> (zapp · (optField o "burst" znumber))
    |> (zapp · (defField o "strategy"
          (zenum ["token-bucket", "leaky-bucket", "fixed-window"]) "token-bucket"))

def CheckpointStepSchema (o : List (String × Json)) : ZRes CheckpointStep :=
  zpure (fun _ name data => CheckpointStep.mk name data)
    |> (zapp · (reqField o "type" (zliteral "checkpoint")))
    |> (zapp · (reqField o "name" zstring))
    |> (zapp · (optField o "data" (zrecord zunknown)))

def CircuitBreakerStepSchema (o : List (String × Json)) : ZRes CircuitBreakerStep :=
  zpure (fun _ failureThreshold recoveryTimeout halfOpenMaxCalls monitorInterval =>
      CircuitBreakerStep.mk failureThreshold recoveryTimeout halfOpenMaxCalls monitorInterval)
    |> (zapp · (reqField o "type" (zliteral "circuitBreaker")))
    |> (zapp · (defField o "failureThreshold" znumber 5))
    |> (zapp · (defField o "recoveryTimeout" znumber 60))
    |> (zapp · (defField o "halfOpenMaxCalls" znumber 3))
    |> (zapp · (defField o "monitorInterval" znumber 10))

def StepSchema (j : Json) : ZRes Step :=
  match j with
  | .obj o =>
    match getField o "type" with
    | some (.str "connector") => Except.map Step.connector (ConnectorStepSchema o)
    | some (.str "map") => Except.map Step.map (MapStepSchema o)
    | some (.str "script") => Except.map Step.script (ScriptStepSchema o)
    | some (.str "enrich") => Except.map Step.enrich (EnrichStepSchema o)
    | some (.str "branch") => Except.map Step.branch (BranchStepSchema o)
    | some (.str "retry") => Except.map Step.retry (RetryStepSchema o)
    | some (.str "dlq") => Except.map Step.dlq (DlqStepSchema o)
    | some (.str "throttle") => Except.map Step.throttle (ThrottleStepSchema o)
    | some (.str "checkpoint") => Except.map Step.checkpoint (CheckpointStepSchema o)
    | some (.str "circuitBreaker") => Except.map Step.circuitBreaker (CircuitBreakerStepSchema o)
    | _ => .error [⟨[.key "type"], "Invalid discriminator value"⟩]
  | _ => .error [⟨[], "Expected object, received " ++ jsonTypeName j⟩]

def RestTransportSchema (o : List (String × Json)) : ZRes RestTransport :=
  zpure (fun _ method url headers timeout retry =>
      RestTransport.mk method url headers timeout retry)
    |> (zapp · (reqField o "type" (zliteral "rest")))
    |> (zapp · (reqField o "method" (zenum ["GET", "POST", "PUT", "DELETE", "PATCH"])))
    |> (zapp · (reqField o "url" zstring))
    |> (zapp · (optField o "headers" (zrecord zstring)))
    |> (zapp · (defField o "timeout" znumber 30))
    |> (zapp · (optField o "retry" RetryConfigSchema))

def SoapTransportSchema (o : List (String × Json)) : ZRes SoapTransport :=
  zpure (fun _ url action envelope timeout headers =>
      SoapTransport.mk url action envelope timeout headers)
    |> (zapp · (reqField o "type" (zliteral "soap")))
    |> (zapp · (reqField o "url" zstring))
    |> (zapp · (reqField o "action" zstring))
    |> (zapp · (reqField o "envelope" zstring))
    |> (zapp · (defField o "timeout" znumber 30))
    |> (zapp · (optField o "headers" (zrecord zstring)))

def GraphqlTransportSchema (o : List (String × Json)) : ZRes GraphqlTransport :=
  zpure (fun _ url query vars headers timeout =>
      GraphqlTransport.mk url query vars headers timeout)
    |> (zapp · (reqField o "type" (zliteral "graphql")))
    |> (zapp · (reqField o "url" zstring))
    |> (zapp · (reqField o "query" zstring))
    |> (zapp · (optField o "variables" (zrecord zunknown)))
    |> (zapp · (optField o "headers" (zrecord zstring)))
    |> (zapp · (defField o "timeout" znumber 30))

/-- The inline `connectionPool` object schema of `JdbcTransportSchema`. -/
def ConnectionPoolSchema : Json → ZRes ConnectionPool := zobj fun o =>
  zpure ConnectionPool.mk
    |> (zapp · (defField o "min" znumber 1))
    |> (zapp · (defField o "max" znumber 10))

def JdbcTransportSchema (o : List (String × Json)) : ZRes JdbcTransport :=
  zpure (fun _ url username password query parameters timeout connectionPool =>
      JdbcTransport.mk url username password query parameters timeout connectionPool)
    |> (zapp · (reqField o "type" (zliteral "jdbc")))
    |> (zapp · (reqField o "url" zstring))
    |> (zapp · (reqField o "username" zstring))
    |> (zapp · (reqField o "password" zstring))
    |> (zapp · (reqField o "query" zstring))
    |> (zapp · (optField o "parameters" (zarray zunknown)))
    |> (zapp · (defField o "timeout" znumber 30))
    |> (zapp · (optField o "connectionPool" ConnectionPoolSchema))

def KafkaTransportSchema (o : List (String × Json)) : ZRes KafkaTransport :=
  zpure (fun _ topic bootstrapServers ks vs acks retries =>
      KafkaTransport.mk topic bootstrapServers ks vs acks retries)
    |> (zapp · (reqField o "type" (zliteral "kafka")))
    |> (zapp · (reqField o "topic" zstring))
    |> (zapp · (reqField o "bootstrapServers" (zarray zstring)))
    |> (zapp · (defField o "keySerializer" zstring
          "org.apache.kafka.common.serialization.StringSerializer"))
    |> (zapp · (defField o "valueSerializer" zstring
          "org.apache.kafka.common.serialization.StringSerializer"))
    |> (zapp · (defField o "acks" (zenum ["0", "1", "all"]) "1"))
    |> (zapp · (defField o "retries" znumber 3))

def MqttTransportSchema (o : List (String × Json)) : ZRes MqttTransport :=
  zpure (fun _ topic qos broker clientId username password retain =>
      MqttTransport.mk topic qos broker clientId username password retain)
    |> (zapp · (reqField o "type" (zliteral "mqtt")))
    |> (zapp · (reqField o "topic" zstring))
    |> (zapp · (defField o "qos" (znumMinMax 0 2) 1))
    |> (zapp · (reqField o "broker" zstring))
    |> (zapp · (reqField o "clientId" zstring))
    |> (zapp · (optField o "username" zstring))
    |> (zapp · (optField o "password" zstring))
    |> (zapp · (defField o "retain" zboolean false))

def SftpTransportSchema (o : List (String × Json)) : ZRes SftpTransport :=
  zpure (fun _ host port username password privateKey path mode =>
      SftpTransport.mk host port username password privateKey path mode)
    |> (zapp · (reqField o "type" (zliteral "sftp")))
    |> (zapp · (reqField o "host" zstring))
    |> (zapp · (defField o "port" znumber 22))
    |> (zapp · (reqField o "username" zstring))
    |> (zapp · (optField o "password" zstring))
    |> (zapp · (optField o "privateKey" zstring))
    |> (zapp · (reqField o "path" zstring))
    |> (zapp · (reqField o "mode" (zenum ["upload", "download"])))

def FsTransportSchema (o : List (String × Json)) : ZRes FsTransport :=
  zpure (fun _ path mode encoding createDir => FsTransport.mk path mode encoding createDir)
    |> (zapp · (reqField o "type" (zliteral "fs")))
    |> (zapp · (reqField o "path" zstring))
    |> (zapp · (reqField o "mode" (zenum ["read", "write", "append"])))
    |> (zapp · (defField o "encoding" zstring "utf8"))
    |> (zapp · (defField o "createDir" zboolean false))

def CustomTransportSchema (o : List (String × Json)) : ZRes CustomTransport :=
  zpure (fun _ name config => CustomTransport.mk name config)
    |> (zapp · (reqField o "type" (zliteral "custom")))
    |> (zapp · (reqField o "name" zstring))
    |> (zapp · (reqField o "config" (zrecord zunknown)))

def TransportSchema (j : Json) : ZRes Transport :=
  match j with
  | .obj o =>
    match getField o "type" with
    | some (.str "rest") => Except.map Transport.rest (RestTransportSchema o)
    | some (.str "soap") => Except.map Transport.soap (SoapTransportSchema o)
    | some (.str "graphql") => Except.map Transport.graphql (GraphqlTransportSchema o)
    | some (.str "jdbc") => Except.map Transport.jdbc (JdbcTransportSchema o)
    | some (.str "kafka") => Except.map Transport.kafka (KafkaTransportSchema o)
    | some (.str "mqtt") => Except.map Transport.mqtt (MqttTransportSchema o)
    | some (.str "sftp") => Except.map Transport.sftp (SftpTransportSchema o)
    | some (.str "fs") => Except.map Transport.fs (FsTransportSchema o)
    | some (.str "custom") => Except.map Transport.custom (CustomTransportSchema o)
    | _ => .error [⟨[.key "type"], "Invalid discriminator value"⟩]
  | _ => .error [⟨[], "Expected object, received " ++ jsonTypeName j⟩]

def QosPolicySchema (o : List (String × Json)) : ZRes QosPolicy :=
  zpure (fun _ priority timeout retry => QosPolicy.mk priority timeout retry)
    |> (zapp · (reqField o "type" (zliteral "qos")))
    |> (zapp · (defField o "priority" (zenum ["low", "normal", "high", "critical"]) "normal"))
    |> (zapp · (optField o "timeout" znumber))
    |> (zapp · (optField o "retry" RetryConfigSchema))

def IdempotencyPolicySchema (o : List (String × Json)) : ZRes IdempotencyPolicy :=
  zpure (fun _ key ttl strategy => IdempotencyPolicy.mk key ttl strategy)
    |> (zapp · (reqField o "type" (zliteral "idempotency")))
    |> (zapp · (reqField o "key" zstring))
    |> (zapp · (defField o "ttl" znumber 3600))
    |> (zapp · (defField o "strategy" (zenum ["cache", "database"]) "cache"))

def MtlsPolicySchema (o : List (String × Json)) : ZRes MtlsPolicy :=
  zpure (fun _ certPath keyPath caPath verify => MtlsPolicy.mk certPath keyPath caPath verify)
    |> (zapp · (reqField o "type" (zliteral "mtls")))
    |> (zapp · (reqField o "certPath" zstring))
    |> (zapp · (reqField o "keyPath" zstring))
    |> (zapp · (optField o "caPath" zstring))
    |> (zapp · (defField o "verify" zboolean true))

def OpaPolicySchema (o : List (String × Json)) : ZRes OpaPolicy :=
  zpure (fun _ policyRef data input => OpaPolicy.mk policyRef data input)
    |> (zapp · (reqField o "type" (zliteral "opa")))
    |> (zapp · (reqField o "policyRef" zstring))
    |> (zapp · (optField o "data" (zrecord zunknown)))
    |> (zapp · (optField o "input" (zrecord zunknown)))

def SecretsPolicySchema (o : List (String × Json)) : ZRes SecretsPolicy :=
  zpure (fun _ vaultPaths refreshInterval => SecretsPolicy.mk vaultPaths refreshInterval)
    |> (zapp · (reqField o "type" (zliteral "secrets")))
    |> (zapp · (reqField o "vaultPaths" (zarray zstring)))
    |> (zapp · (defField o "refreshInterval" znumber 300))

def PolicySchema (j : Json) : ZRes Policy :=
  match j with
  | .obj o =>
    match getField o "type" with
    | some (.str "qos") => Except.map Policy.qos (QosPolicySchema o)
    | some (.str "idempotency") => Except.map Policy.idempotency (IdempotencyPolicySchema o)
    | some (.str "mtls") => Except.map Policy.mtls (MtlsPolicySchema o)
    | some (.str "opa") => Except.map Policy.opa (OpaPolicySchema o)
    | some (.str "secrets") => Except.map Policy.secrets (SecretsPolicySchema o)
    | _ => .error [⟨[.key "type"], "Invalid discriminator value"⟩]
  | _ => .error [⟨[], "Expected object, received " ++ jsonTypeName j⟩]

/-- The inline `sampling` object schema of `TraceConfigSchema`. -/
def TraceSamplingSchema : Json → ZRes TraceSampling := zobj fun o =>
  zpure TraceSampling.mk
    |> (zapp · (defField o "rate" (znumMinMax 0 1) 1))
    |> (zapp · (defField o "strategy"
          (zenum ["always", "probabilistic", "rate-limiting"]) "always"))

def TraceConfigSchema : Json → ZRes TraceConfig := zobj fun o =>
  zpure TraceConfig.mk
    |> (zapp · (defField o "propagation" (zenum ["w3c", "b3", "jaeger"]) "w3c"))
    |> (zapp · (optField o "sampling" TraceSamplingSchema))

def PayloadSamplingSchema : Json → ZRes PayloadSampling := zobj fun o =>
  zpure PayloadSampling.mk
    |> (zapp · (defField o "enabled" zboolean false))
    |> (zapp · (defField o "rate" (znumMinMax 0 1) ⟨1, 10, by decide, by decide⟩))
    |> (zapp · (defField o "maxSize" znumber 1024))
    |> (zapp · (optField o "fields" (zarray zstring)))

/-- The inline `metrics` object schema of `ObservabilitySchema`. -/
def MetricsConfigSchema : Json → ZRes MetricsConfig := zobj fun o =>
  zpure MetricsConfig.mk
    |> (zapp · (defField o "enabled" zboolean true))
    |> (zapp · (defField o "interval" znumber 60))

/-- The inline `logs` object schema of `ObservabilitySchema`. -/
def LogsConfigSchema : Json → ZRes LogsConfig := zobj fun o =>
  zpure LogsConfig.mk
    |> (zapp · (defField o "level" (zenum ["debug", "info", "warn", "error"]) "info"))
    |> (zapp · (defField o "structured" zboolean true))

def ObservabilitySchema : Json → ZRes Observability := zobj fun o =>
  zpure Observability.mk
    |> (zapp · (optField o "traceId" TraceConfigSchema))
    |> (zapp · (defField o "sampleRate" (znumMinMax 0 1) 1))
    |> (zapp · (optField o "payloadSampling" PayloadSamplingSchema))
    |> (zapp · (optField o "metrics" MetricsConfigSchema))
    |> (zapp · (optField o "logs" LogsConfigSchema))

/-- The inline element schema of `FlowSchema.steps`. -/
def FlowStepSchema : Json → ZRes FlowStep := zobj fun o =>
  zpure FlowStep.mk
    |> (zapp · (reqField o "id" zstring))
    |> (zapp · (reqField o "name" zstring))
    |> (zapp · (optField o "description" zstring))
    |> (zapp · (reqField o "step" StepSchema))
    |> (zapp · (optField o "transport" TransportSchema))
    |> (zapp · (optField o "policies" (zarray PolicySchema)))
    |> (zapp · (optField o "next" (zarray zstring)))
    |> (zapp · (optField o "error" zstring))

/-- `FlowSchema.safeParse`: coercion of an untyped document into the
typed `Flow`, accumulating every structural issue. -/
def FlowSchema : Json → ZRes Flow := zobj fun o =>
  zpure Flow.mk
    |> (zapp · (defField o "$schema" zstring "https://json-schema.org/draft/2020-12/schema"))
    |> (zapp · (reqField o "metadata" MetadataSchema))
    |> (zapp · (optField o "triggers" (zarray TriggerSchema)))
    |> (zapp · (reqField o "steps" (zarray FlowStepSchema)))
    |> (zapp · (optField o "observability" ObservabilitySchema))

end FusionFlow

namespace FusionFlow

/-! ## Semantic validator (`validate.ts`)

The `FlowValidator` class accumulates findings into two private arrays
while walking the typed flow; here each private method is a pure
function returning the findings it would push, and the `validate` entry
point concatenates them in the source's call order. JavaScript truthiness
tests (`!x`, `x && ...`) on strings and numbers are modelled by
emptiness / zero tests. -/

/-- A `ValidationError` (`severity` is always `"error"` at every
construction site of `validate.ts`). -/
structure ValidationError where
  path : String
  message : String
  code : String
  severity : String
deriving Repr, DecidableEq

structure ValidationWarning where
  path : String
  message : String
  code : String
  severity : String
deriving Repr, DecidableEq

structure ValidationResult where
  valid : Bool
  errors : List ValidationError
  warnings : List ValidationWarning
deriving Repr, DecidableEq

/-- `this.errors.push({path, message, code, severity: 'error'})`. -/
def verr (path message code : String) : ValidationError :=
  ⟨path, message, code, "error"⟩

/-- `this.warnings.push({path, message, code, severity: 'warning'})`. -/
def vwarn (path message code : String) : ValidationWarning :=
  ⟨path, message, code, "warning"⟩

/-- JS falsiness of an optional string (`!x`): absent or empty. -/
def optStrFalsy : Option String → Bool
  | none => true
  | some s => s.isEmpty

/-- JS falsiness of an optional number (`!x`): absent or zero. -/
def optNumFalsy : Option ℚ → Bool
  | none => true
  | some q => q = 0

/-- JS `x && x <= 0` on a present number: truthy (non-zero) and
non-positive, i.e. strictly negative. -/
def numTruthyNonpos (q : ℚ) : Bool :=
  q ≠ 0 && q ≤ 0

/-- JS `x && x <= 0` on an optional number. -/
def optNumTruthyNonpos : Option ℚ → Bool
  | none => false
  | some q => numTruthyNonpos q

/-- `FlowValidator.validateMetadata`, returning the pushed
(errors, warnings). -/
def validateMetadata (metadata : Metadata) :
    List ValidationError × List ValidationWarning :=
  let retentionWarnings :=
    match metadata.compliance with
    | some c =>
      if (c.gdpr || c.hipaa) && optNumFalsy c.dataRetention then
        [vwarn "metadata.compliance.dataRetention"
          "Data retention period should be specified for GDPR/HIPAA compliance"
          "COMPLIANCE_DATA_RETENTION_MISSING"]
      else []
    | none => []
  let rbacErrors :=
    match metadata.compliance with
    | some c =>
      if c.hipaa && (match metadata.rbac with
                     | none => true
                     | some r => r.roles.isEmpty) then
        [verr "metadata.rbac.roles"
          "RBAC roles are required for HIPAA compliance" "HIPAA_RBAC_REQUIRED"]
      else []
    | none => []
  let ownerWarnings :=
    if metadata.owners.isEmpty then
      [vwarn "metadata.owners" "Flow should have at least one owner" "OWNERS_MISSING"]
    else []
  (rbacErrors, retentionWarnings ++ ownerWarnings)

/-- `FlowValidator.validateHttpTrigger`. -/
def validateHttpTrigger (trigger : HttpTrigger) (path : String) : List ValidationError :=
  (match trigger.auth with
   | some auth =>
     if auth.type = "api-key"
         && optStrFalsy ((auth.config.getD []).find? (fun p => p.1 = "key") |>.map (·.2)) then
       [verr (path ++ ".auth.config.key")
         "API key is required for api-key authentication" "HTTP_API_KEY_MISSING"]
     else []
   | none => [])
  ++ (match trigger.rateLimit with
      | some rl =>
        if rl.requests ≤ 0 then
          [verr (path ++ ".rateLimit.requests")
            "Rate limit requests must be greater than 0" "HTTP_RATE_LIMIT_INVALID"]
        else []
      | none => [])

/-- Models `new Date(a) >= new Date(b)` on schema-checked ISO 8601 UTC
strings: the fixed-width prefix is compared lexicographically and the
optional fractional-seconds group numerically. -/
def isoGe (a b : String) : Bool :=
  let key := fun (s : String) =>
    ((String.mk (s.data.take 19)),
     (match s.data.drop 19 with
      | '.' :: rest => ((digitsVal rest.dropLast : ℚ) / ((10 : ℚ) ^ rest.dropLast.length))
      | _ => (0 : ℚ)))
  let ka := key a
  let kb := key b
  if ka.1 = kb.1 then kb.2 ≤ ka.2 else decide (kb.1 < ka.1)

/-- `FlowValidator.validateScheduleTrigger`. -/
def validateScheduleTrigger (trigger : ScheduleTrigger) (path : String) : List ValidationError :=
  let cronParts := trigger.cron.splitOn " "
  (if cronParts.length < 5 || cronParts.length > 6 then
    [verr (path ++ ".cron") "Invalid cron expression format" "SCHEDULE_CRON_INVALID"]
   else [])
  ++ (match trigger.startDate, trigger.endDate with
      | some s, some e =>
        if isoGe s e then
          [verr (path ++ ".endDate") "End date must be after start date"
            "SCHEDULE_DATE_RANGE_INVALID"]
        else []
      | _, _ => [])

/-- `FlowValidator.validateKafkaTrigger`. -/
def validateKafkaTrigger (trigger : KafkaTrigger) (path : String) : List ValidationError :=
  if trigger.bootstrapServers.isEmpty then
    [verr (path ++ ".bootstrapServers") "At least one bootstrap server is required"
      "KAFKA_BOOTSTRAP_SERVERS_EMPTY"]
  else []

/-- `FlowValidator.validateMqttTrigger`. -/
def validateMqttTrigger (trigger : MqttTrigger) (path : String) : List ValidationError :=
  if trigger.qos < 0 || 2 < trigger.qos then
    [verr (path ++ ".qos") "QoS must be between 0 and 2" "MQTT_QOS_INVALID"]
  else []

/-- `FlowValidator.validateSftpTrigger`. -/
def validateSftpTrigger (trigger : SftpTrigger) (path : String) : List ValidationError :=
  if optStrFalsy trigger.password && optStrFalsy trigger.privateKey then
    [verr path "Either password or privateKey must be provided for SFTP authentication"
      "SFTP_AUTH_MISSING"]
  else []

/-- `FlowValidator.validateJdbcTrigger`. -/
def validateJdbcTrigger (trigger : JdbcTrigger) (path : String) : List ValidationError :=
  if !trigger.url.startsWith "jdbc:" then
    [verr (path ++ ".url") "JDBC URL must start with \"jdbc:\"" "JDBC_URL_INVALID"]
  else []

/-- `FlowValidator.validateFileWatchTrigger`. -/
def validateFileWatchTrigger (trigger : FileWatchTrigger) (path : String) : List ValidationError :=
  if trigger.events.isEmpty then
    [verr (path ++ ".events") "At least one event type must be specified"
      "FILE_WATCH_EVENTS_EMPTY"]
  else []

/-- The indexed `forEach` of `FlowValidator.validateTriggers`. -/
def validateTriggersAux (i : Nat) : List Trigger → List ValidationError
  | [] => []
  | t :: rest =>
    let path := "triggers[" ++ toString i ++ "]"
    (match t with
     | .http tr => validateHttpTrigger tr path
     | .schedule tr => validateScheduleTrigger tr path
     | .kafka tr => validateKafkaTrigger tr path
     | .mqtt tr => validateMqttTrigger tr path
     | .sftp tr => validateSftpTrigger tr path
     | .jdbc tr => validateJdbcTrigger tr path
     | .fileWatch tr => validateFileWatchTrigger tr path)
    ++ validateTriggersAux (i + 1) rest

/-- `FlowValidator.validateTriggers`. -/
def validateTriggers (triggers : List Trigger) : List ValidationError :=
  validateTriggersAux 0 triggers

end FusionFlow

namespace FusionFlow

/-- `FlowValidator.validateConnectorStep`. -/
def validateConnectorStep (step : ConnectorStep) (path : String) : List ValidationError :=
  (if step.connectorRef.isEmpty then
    [verr (path ++ ".connectorRef") "Connector reference is required" "CONNECTOR_REF_MISSING"]
   else [])
  ++ (if step.operation.isEmpty then
    [verr (path ++ ".operation") "Operation is required" "CONNECTOR_OPERATION_MISSING"]
      else [])
  ++ (if optNumTruthyNonpos step.timeout then
    [verr (path ++ ".timeout") "Timeout must be greater than 0" "CONNECTOR_TIMEOUT_INVALID"]
      else [])

/-- `FlowValidator.validateMapStep` (`!expression || expression.trim() === ''`). -/
def validateMapStep (step : MapStep) (path : String) : List ValidationError :=
  if step.expression.isEmpty || step.expression.trim = "" then
    [verr (path ++ ".expression") "JSONata expression is required" "MAP_EXPRESSION_MISSING"]
  else []

/-- `FlowValidator.validateScriptStep`. -/
def validateScriptStep (step : ScriptStep) (path : String) : List ValidationError :=
  (if step.code.isEmpty || step.code.trim = "" then
    [verr (path ++ ".code") "Script code is required" "SCRIPT_CODE_MISSING"]
   else [])
  ++ (if numTruthyNonpos step.timeout then
    [verr (path ++ ".timeout") "Timeout must be greater than 0" "SCRIPT_TIMEOUT_INVALID"]
      else [])

/-- `FlowValidator.validateEnrichStep`. -/
def validateEnrichStep (step : EnrichStep) (path : String) : List ValidationError :=
  (if step.source.isEmpty then
    [verr (path ++ ".source") "Source is required" "ENRICH_SOURCE_MISSING"]
   else [])
  ++ (if step.key.isEmpty then
    [verr (path ++ ".key") "Key field is required" "ENRICH_KEY_MISSING"]
      else [])

/-- The indexed `forEach` over `conditions` in
`FlowValidator.validateBranchStep`. -/
def validateBranchConditionsAux (path : String) (i : Nat) :
    List BranchCondition → List ValidationError
  | [] => []
  | c :: rest =>
    (if c.condition.isEmpty then
      [verr (path ++ ".conditions[" ++ toString i ++ "].condition")
        "Condition expression is required" "BRANCH_CONDITION_MISSING"]
     else [])
    ++ (if c.nextStep.isEmpty then
      [verr (path ++ ".conditions[" ++ toString i ++ "].nextStep")
        "Next step is required" "BRANCH_NEXT_STEP_MISSING"]
        else [])
    ++ validateBranchConditionsAux path (i + 1) rest

/-- `FlowValidator.validateBranchStep`: only the presence of a
condition expression and of a (non-empty) target name is checked; the
target is never resolved against step identifiers, and `default` is not
inspected at all. -/
def validateBranchStep (step : BranchStep) (path : String) : List ValidationError :=
  (if step.conditions.isEmpty then
    [verr (path ++ ".conditions") "At least one condition is required" "BRANCH_CONDITIONS_EMPTY"]
   else [])
  ++ validateBranchConditionsAux path 0 step.conditions

/-- `FlowValidator.validateRetryStep`. -/
def validateRetryStep (step : RetryStep) (path : String) : List ValidationError :=
  if step.maxAttempts ≤ 0 then
    [verr (path ++ ".maxAttempts") "Max attempts must be greater than 0"
      "RETRY_MAX_ATTEMPTS_INVALID"]
  else []

/-- `FlowValidator.validateDlqStep`. -/
def validateDlqStep (step : DlqStep) (path : String) : List ValidationError :=
  if step.reason.isEmpty then
    [verr (path ++ ".reason") "DLQ reason is required" "DLQ_REASON_MISSING"]
  else []

/-- `FlowValidator.validateThrottleStep`. -/
def validateThrottleStep (step : ThrottleStep) (path : String) : List ValidationError :=
  (if step.rate ≤ 0 then
    [verr (path ++ ".rate") "Rate must be greater than 0" "THROTTLE_RATE_INVALID"]
   else [])
  ++ (if optNumTruthyNonpos step.burst then
    [verr (path ++ ".burst") "Burst capacity must be greater than 0" "THROTTLE_BURST_INVALID"]
      else [])

/-- `FlowValidator.validateCheckpointStep`. -/
def validateCheckpointStep (step : CheckpointStep) (path : String) : List ValidationError :=
  if step.name.isEmpty then
    [verr (path ++ ".name") "Checkpoint name is required" "CHECKPOINT_NAME_MISSING"]
  else []

/-- `FlowValidator.validateCircuitBreakerStep`. -/
def validateCircuitBreakerStep (step : CircuitBreakerStep) (path : String) :
    List ValidationError :=
  (if step.failureThreshold ≤ 0 then
    [verr (path ++ ".failureThreshold") "Failure threshold must be greater than 0"
      "CIRCUIT_BREAKER_THRESHOLD_INVALID"]
   else [])
  ++ (if step.recoveryTimeout ≤ 0 then
    [verr (path ++ ".recoveryTimeout") "Recovery timeout must be greater than 0"
      "CIRCUIT_BREAKER_TIMEOUT_INVALID"]
      else [])

/-- `FlowValidator.validateStepConfig`: dispatch on the step variant. -/
def validateStepConfig (step : Step) (path : String) : List ValidationError :=
  match step with
  | .connector s => validateConnectorStep s path
  | .map s => validateMapStep s path
  | .script s => validateScriptStep s path
  | .enrich s => validateEnrichStep s path
  | .branch s => validateBranchStep s path
  | .retry s => validateRetryStep s path
  | .dlq s => validateDlqStep s path
  | .throttle s => validateThrottleStep s path
  | .checkpoint s => validateCheckpointStep s path
  | .circuitBreaker s => validateCircuitBreakerStep s path

/-- `FlowValidator.validateRestTransport`. -/
def validateRestTransport (transport : RestTransport) (path : String) : List ValidationError :=
  (if transport.url.isEmpty then
    [verr (path ++ ".url") "URL is required for REST transport" "REST_URL_MISSING"]
   else [])
  ++ (if numTruthyNonpos transport.timeout then
    [verr (path ++ ".timeout") "Timeout must be greater than 0" "REST_TIMEOUT_INVALID"]
      else [])

/-- `FlowValidator.validateSoapTransport`. -/
def validateSoapTransport (transport : SoapTransport) (path : String) : List ValidationError :=
  (if transport.url.isEmpty then
    [verr (path ++ ".url") "URL is required for SOAP transport" "SOAP_URL_MISSING"]
   else [])
  ++ (if transport.action.isEmpty then
    [verr (path ++ ".action") "SOAP action is required" "SOAP_ACTION_MISSING"]
      else [])

/-- `FlowValidator.validateGraphqlTransport`. -/
def validateGraphqlTransport (transport : GraphqlTransport) (path : String) :
    List ValidationError :=
  (if transport.url.isEmpty then
    [verr (path ++ ".url") "URL is required for GraphQL transport" "GRAPHQL_URL_MISSING"]
   else [])
  ++ (if transport.query.isEmpty then
    [verr (path ++ ".query") "GraphQL query is required" "GRAPHQL_QUERY_MISSING"]
      else [])

/-- `FlowValidator.validateJdbcTransport`. -/
def validateJdbcTransport (transport : JdbcTransport) (path : String) : List ValidationError :=
  (if !transport.url.startsWith "jdbc:" then
    [verr (path ++ ".url") "JDBC URL must start with \"jdbc:\"" "JDBC_URL_INVALID"]
   else [])
  ++ (if transport.query.isEmpty then
    [verr (path ++ ".query") "SQL query is required" "JDBC_QUERY_MISSING"]
      else [])

/-- `FlowValidator.validateKafkaTransport`. -/
def validateKafkaTransport (transport : KafkaTransport) (path : String) : List ValidationError :=
  (if transport.topic.isEmpty then
    [verr (path ++ ".topic") "Topic is required for Kafka transport" "KAFKA_TOPIC_MISSING"]
   else [])
  ++ (if transport.bootstrapServers.isEmpty then
    [verr (path ++ ".bootstrapServers") "At least one bootstrap server is required"
      "KAFKA_BOOTSTRAP_SERVERS_EMPTY"]
      else [])

/-- `FlowValidator.validateMqttTransport`. -/
def validateMqttTransport (transport : MqttTransport) (path : String) : List ValidationError :=
  (if transport.topic.isEmpty then
    [verr (path ++ ".topic") "Topic is required for MQTT transport" "MQTT_TOPIC_MISSING"]
   else [])
  ++ (if transport.broker.isEmpty then
    [verr (path ++ ".broker") "Broker is required for MQTT transport" "MQTT_BROKER_MISSING"]
      else [])

/-- `FlowValidator.validateSftpTransport`. -/
def validateSftpTransport (transport : SftpTransport) (path : String) : List ValidationError :=
  (if transport.host.isEmpty then
    [verr (path ++ ".host") "Host is required for SFTP transport" "SFTP_HOST_MISSING"]
   else [])
  ++ (if transport.path.isEmpty then
    [verr (path ++ ".path") "Path is required for SFTP transport" "SFTP_PATH_MISSING"]
      else [])

/-- `FlowValidator.validateFsTransport`. -/
def validateFsTransport (transport : FsTransport) (path : String) : List ValidationError :=
  if transport.path.isEmpty then
    [verr (path ++ ".path") "Path is required for file system transport" "FS_PATH_MISSING"]
  else []

/-- `FlowValidator.validateCustomTransport`. -/
def validateCustomTransport (transport : CustomTransport) (path : String) :
    List ValidationError :=
  if transport.name.isEmpty then
    [verr (path ++ ".name") "Name is required for custom transport"
      "CUSTOM_TRANSPORT_NAME_MISSING"]
  else []

/-- `FlowValidator.validateTransport`: dispatch on the transport variant. -/
def validateTransport (transport : Transport) (path : String) : List ValidationError :=
  match transport with
  | .rest t => validateRestTransport t path
  | .soap t => validateSoapTransport t path
  | .graphql t => validateGraphqlTransport t path
  | .jdbc t => validateJdbcTransport t path
  | .kafka t => validateKafkaTransport t path
  | .mqtt t => validateMqttTransport t path
  | .sftp t => validateSftpTransport t path
  | .fs t => validateFsTransport t path
  | .custom t => validateCustomTransport t path

/-- `FlowValidator.validateQosPolicy`. -/
def validateQosPolicy (policy : QosPolicy) (path : String) : List ValidationError :=
  if optNumTruthyNonpos policy.timeout then
    [verr (path ++ ".timeout") "QoS timeout must be greater than 0" "QOS_TIMEOUT_INVALID"]
  else []

/-- `FlowValidator.validateIdempotencyPolicy`. -/
def validateIdempotencyPolicy (policy : IdempotencyPolicy) (path : String) :
    List ValidationError :=
  (if policy.key.isEmpty then
    [verr (path ++ ".key") "Idempotency key expression is required" "IDEMPOTENCY_KEY_MISSING"]
   else [])
  ++ (if numTruthyNonpos policy.ttl then
    [verr (path ++ ".ttl") "TTL must be greater than 0" "IDEMPOTENCY_TTL_INVALID"]
      else [])

/-- `FlowValidator.validateMtlsPolicy`. -/
def validateMtlsPolicy (policy : MtlsPolicy) (path : String) : List ValidationError :=
  (if policy.certPath.isEmpty then
    [verr (path ++ ".certPath") "Certificate path is required for mTLS" "MTLS_CERT_PATH_MISSING"]
   else [])
  ++ (if policy.keyPath.isEmpty then
    [verr (path ++ ".keyPath") "Private key path is required for mTLS" "MTLS_KEY_PATH_MISSING"]
      else [])

/-- `FlowValidator.validateOpaPolicy`. -/
def validateOpaPolicy (policy : OpaPolicy) (path : String) : List ValidationError :=
  if policy.policyRef.isEmpty then
    [verr (path ++ ".policyRef") "Policy reference is required for OPA policy"
      "OPA_POLICY_REF_MISSING"]
  else []

/-- `FlowValidator.validateSecretsPolicy`. -/
def validateSecretsPolicy (policy : SecretsPolicy) (path : String) : List ValidationError :=
  (if policy.vaultPaths.isEmpty then
    [verr (path ++ ".vaultPaths") "At least one Vault path is required"
      "SECRETS_VAULT_PATHS_EMPTY"]
   else [])
  ++ (if numTruthyNonpos policy.refreshInterval then
    [verr (path ++ ".refreshInterval") "Refresh interval must be greater than 0"
      "SECRETS_REFRESH_INTERVAL_INVALID"]
      else [])

/-- `FlowValidator.validatePolicy`: dispatch on the policy variant. -/
def validatePolicy (policy : Policy) (path : String) : List ValidationError :=
  match policy with
  | .qos p => validateQosPolicy p path
  | .idempotency p => validateIdempotencyPolicy p path
  | .mtls p => validateMtlsPolicy p path
  | .opa p => validateOpaPolicy p path
  | .secrets p => validateSecretsPolicy p path

/-- The indexed `forEach` over `step.policies` in
`FlowValidator.validateStep`. -/
def validatePoliciesAux (path : String) (i : Nat) : List Policy → List ValidationError
  | [] => []
  | p :: rest =>
    validatePolicy p (path ++ ".policies[" ++ toString i ++ "]")
      ++ validatePoliciesAux path (i + 1) rest

/-- `FlowValidator.validateStep`: the variant payload, then the
transport if present, then each policy. -/
def validateStep (step : FlowStep) (path : String) : List ValidationError :=
  validateStepConfig step.step (path ++ ".step")
  ++ (match step.transport with
      | some t => validateTransport t (path ++ ".transport")
      | none => [])
  ++ (match step.policies with
      | some ps => validatePoliciesAux path 0 ps
      | none => [])

/-- The indexed `forEach` of `FlowValidator.validateSteps`: `stepIds`
is the set of identifiers seen so far; a repeated identifier yields
`DUPLICATE_STEP_ID` before the per-step checks run. -/
def validateStepsAux (stepIds : List String) (i : Nat) :
    List FlowStep → List ValidationError
  | [] => []
  | s :: rest =>
    let path := "steps[" ++ toString i ++ "]"
    (if s.id ∈ stepIds then
      [verr (path ++ ".id") ("Duplicate step ID: " ++ s.id) "DUPLICATE_STEP_ID"]
     else [])
    ++ validateStep s path
    ++ validateStepsAux (s.id :: stepIds) (i + 1) rest

/-- `FlowValidator.validateSteps`. -/
def validateSteps (steps : List FlowStep) : List ValidationError :=
  validateStepsAux [] 0 steps

/-- The indexed `forEach` over one step's `next` list in
`FlowValidator.validateStepReferences`. -/
def validateNextRefsAux (stepIds : List String) (path : String) (i : Nat) :
    List String → List ValidationError
  | [] => []
  | n :: rest =>
    (if n ∈ stepIds then []
     else
       [verr (path ++ ".next[" ++ toString i ++ "]")
         ("Referenced step \"" ++ n ++ "\" does not exist") "INVALID_NEXT_STEP_REFERENCE"])
    ++ validateNextRefsAux stepIds path (i + 1) rest

/-- The indexed outer `forEach` of
`FlowValidator.validateStepReferences`; `step.error &&` means an empty
error identifier is skipped (JS falsiness). -/
def validateStepReferencesAux (stepIds : List String) (i : Nat) :
    List FlowStep → List ValidationError
  | [] => []
  | s :: rest =>
    let path := "steps[" ++ toString i ++ "]"
    (match s.next with
     | some ns => validateNextRefsAux stepIds path 0 ns
     | none => [])
    ++ (match s.error with
        | some e =>
          if !e.isEmpty && e ∉ stepIds then
            [verr (path ++ ".error")
              ("Referenced error step \"" ++ e ++ "\" does not exist")
              "INVALID_ERROR_STEP_REFERENCE"]
          else []
        | none => [])
    ++ validateStepReferencesAux stepIds (i + 1) rest

/-- `FlowValidator.validateStepReferences`: the id set is built from
all steps, so a step's own id is always a legal target. -/
def validateStepReferences (steps : List FlowStep) : List ValidationError :=
  validateStepReferencesAux (steps.map FlowStep.id) 0 steps

/-- `FlowValidator.validateObservability`. -/
def validateObservability : Option Observability → List ValidationError
  | none => []
  | some ob =>
    (if ob.sampleRate < 0 || 1 < ob.sampleRate then
      [verr "observability.sampleRate" "Sample rate must be between 0 and 1"
        "OBSERVABILITY_SAMPLE_RATE_INVALID"]
     else [])
    ++ (match ob.payloadSampling with
        | some ps =>
          (if ps.rate < 0 || 1 < ps.rate then
            [verr "observability.payloadSampling.rate"
              "Payload sampling rate must be between 0 and 1"
              "OBSERVABILITY_PAYLOAD_SAMPLING_RATE_INVALID"]
           else [])
          ++ (if ps.maxSize ≤ 0 then
            [verr "observability.payloadSampling.maxSize"
              "Payload sampling max size must be greater than 0"
              "OBSERVABILITY_PAYLOAD_SAMPLING_SIZE_INVALID"]
              else [])
        | none => [])

/-- Rendering of one zod path element in `zodError.path.join('.')`. -/
def pathElemString : PathElem → String
  | .key k => k
  | .idx i => toString i

/-- `zodError.path.join('.')`. -/
def zodPathJoin (path : List PathElem) : String :=
  String.intercalate "." (path.map pathElemString)

/-- `FlowValidator.addSchemaErrors`: every zod issue becomes an error
with code `SCHEMA_VALIDATION_ERROR`. -/
def addSchemaErrors (issues : List ZodIssue) : List ValidationError :=
  issues.map (fun i => ⟨zodPathJoin i.path, i.message, "SCHEMA_VALIDATION_ERROR", "error"⟩)

/-- `FlowValidator.validate`: structural coercion first; on failure the
result holds only schema errors and no warnings; on success the five
semantic rule families run in order and their findings are concatenated.
`getResult` sets `valid` to `errors.length === 0`. -/
def FlowValidator.validate (flow : Json) : ValidationResult :=
  match FlowSchema flow with
  | .error e =>
    let errors := addSchemaErrors e
    { valid := errors.isEmpty, errors := errors, warnings := [] }
  | .ok validatedFlow =>
    let meta := validateMetadata validatedFlow.metadata
    let errors := meta.1
      ++ validateTriggers (validatedFlow.triggers.getD [])
      ++ validateSteps validatedFlow.steps
      ++ validateStepReferences validatedFlow.steps
      ++ validateObservability validatedFlow.observability
    { valid := errors.isEmpty, errors := errors, warnings := meta.2 }

/-- `validateFlow(flow)` — the public entry point. -/
def validateFlow (flow : Json) : ValidationResult :=
  FlowValidator.validate flow

/-- `isFlowValid(flow)`. -/
def isFlowValid (flow : Json) : Bool :=
  (validateFlow flow).valid

end FusionFlow

namespace FusionFlow

/-! ## Legacy schema (`schema.ts`)

`parser.ts` opens with `import { Flow, FlowSchema } from './schema'` —
the *legacy* nodes/edges module, which `index.ts` re-exports as
`LegacyFlowSchema` together with `NodeConfigSchema`, `EdgeConfigSchema`,
`TriggerConfigSchema` and `FlowStatusSchema` — not the flow-dsl
vocabulary of `types.ts` that `validate.ts` binds. Its root object
requires `name`, `nodes` and `edges`, so the parser coerces against a
different shape than the validator. The Lean names `LegacyFlow` /
`LegacyFlowSchema` follow the `index.ts` re-export (inside `schema.ts`
they are called `Flow` / `FlowSchema`, names already taken here by the
`types.ts` vocabulary). -/

/-- A value of `z.union([z.string(), z.number(), z.boolean()])`, the
metadata record value type of the legacy schemas. -/
inductive MetaValue where
  | str (s : String)
  | num (n : ℚ)
  | bool (b : Bool)
deriving Repr

/-- `z.union([z.string(), z.number(), z.boolean()])`: the options are
tried in order; a value of any other kind fails all three. -/
def zmetaValue : Json → ZRes MetaValue
  | .str s => .ok (.str s)
  | .num n => .ok (.num n)
  | .bool b => .ok (.bool b)
  | _ => .error [⟨[], "Invalid input"⟩]

/-- The inline `position` object of `NodeConfigSchema`. -/
structure NodePosition where
  x : ℚ
  y : ℚ
deriving Repr

structure NodeConfig where
  id : String
  type : String
  name : String
  description : Option String
  config : List (String × Json)
  position : Option NodePosition
  metadata : Option (List (String × MetaValue))
deriving Repr

structure EdgeConfig where
  id : String
  source : String
  target : String
  type : String
  condition : Option String
  metadata : Option (List (String × MetaValue))
deriving Repr

structure TriggerConfig where
  type : String
  config : List (String × Json)
  schedule : Option String
  enabled : Bool
  metadata : Option (List (String × MetaValue))
deriving Repr

/-- The inline `retry` object of the legacy `settings`. -/
structure LegacyRetry where
  attempts : ℚ
  delay : ℚ
deriving Repr

/-- The inline `errorHandling` object of the legacy `settings`. -/
structure LegacyErrorHandling where
  continueOnError : Bool
  fallbackNode : Option String
deriving Repr

/-- The inline `settings` object of the legacy root schema. -/
structure LegacySettings where
  timeout : ℚ
  retry : Option LegacyRetry
  errorHandling : Option LegacyErrorHandling
deriving Repr

/-- The root type `Flow` of `schema.ts` — the `Flow` that `parser.ts`
imports and returns. -/
structure LegacyFlow where
  version : String
  name : String
  description : Option String
  author : Option String
  tags : Option (List String)
  nodes : List NodeConfig
  edges : List EdgeConfig
  triggers : Option (List TriggerConfig)
  status : String
  settings : Option LegacySettings
  metadata : Option (List (String × MetaValue))
deriving Repr

def NodePositionSchema : Json → ZRes NodePosition := zobj fun o =>
  zpure NodePosition.mk
    |> (zapp · (reqField o "x" znumber))
    |> (zapp · (reqField o "y" znumber))

def NodeConfigSchema : Json → ZRes NodeConfig := zobj fun o =>
  zpure NodeConfig.mk
    |> (zapp · (reqField o "id" zstring))
    |> (zapp · (reqField o "type" (zenum ["source", "transform", "filter", "aggregate",
          "destination", "condition", "loop", "error_handler"])))
    |> (zapp · (reqField o "name" zstring))
    |> (zapp · (optField o "description" zstring))
    |> (zapp · (reqField o "config" (zrecord zunknown)))
    |> (zapp · (optField o "position" NodePositionSchema))
    |> (zapp · (optField o "metadata" (zrecord zmetaValue)))

def EdgeConfigSchema : Json → ZRes EdgeConfig := zobj fun o =>
  zpure EdgeConfig.mk
    |> (zapp · (reqField o "id" zstring))
    |> (zapp · (reqField o "source" zstring))
    |> (zapp · (reqField o "target" zstring))
    |> (zapp · (reqField o "type" (zenum ["data", "control", "error", "conditional"])))
    |> (zapp · (optField o "condition" zstring))
    |> (zapp · (optField o "metadata" (zrecord zmetaValue)))

def TriggerConfigSchema : Json → ZRes TriggerConfig := zobj fun o =>
  zpure TriggerConfig.mk
    |> (zapp · (reqField o "type" (zenum ["manual", "schedule", "webhook", "event",
          "file_watch", "database_change"])))
    |> (zapp · (reqField o "config" (zrecord zunknown)))
    |> (zapp · (optField o "schedule" zstring))
    |> (zapp · (defField o "enabled" zboolean true))
    |> (zapp · (optField o "metadata" (zrecord zmetaValue)))

def LegacyRetrySchema : Json → ZRes LegacyRetry := zobj fun o =>
  zpure LegacyRetry.mk
    |> (zapp · (defField o "attempts" znumber 3))
    |> (zapp · (defField o "delay" znumber 1000))

def LegacyErrorHandlingSchema : Json → ZRes LegacyErrorHandling := zobj fun o =>
  zpure LegacyErrorHandling.mk
    |> (zapp · (defField o "continueOnError" zboolean false))
    |> (zapp · (optField o "fallbackNode" zstring))

def LegacySettingsSchema : Json → ZRes LegacySettings := zobj fun o =>
  zpure LegacySettings.mk
    |> (zapp · (defField o "timeout" znumber 300))
    |> (zapp · (optField o "retry" LegacyRetrySchema))
    |> (zapp · (optField o "errorHandling" LegacyErrorHandlingSchema))

/-- The `FlowSchema` of `schema.ts` (re-exported by `index.ts` as
`LegacyFlowSchema`): the nodes/edges vocabulary the parser binds;
`name`, `nodes` and `edges` are required. -/
def LegacyFlowSchema : Json → ZRes LegacyFlow := zobj fun o =>
  zpure LegacyFlow.mk
    |> (zapp · (defField o "version" zstring "1.0.0"))
    |> (zapp · (reqField o "name" zstring))
    |> (zapp · (optField o "description" zstring))
    |> (zapp · (optField o "author" zstring))
    |> (zapp · (optField o "tags" (zarray zstring)))
    |> (zapp · (reqField o "nodes" (zarray NodeConfigSchema)))
    |> (zapp · (reqField o "edges" (zarray EdgeConfigSchema)))
    |> (zapp · (optField o "triggers" (zarray TriggerConfigSchema)))
    |> (zapp · (defField o "status"
          (zenum ["draft", "active", "inactive", "error", "archived"]) "draft"))
    |> (zapp · (optField o "settings" LegacySettingsSchema))
    |> (zapp · (optField o "metadata" (zrecord zmetaValue)))

/-! ## Parser (`parser.ts`) and CI wrapper (`scripts/validate-examples.js`)

`FlowParser.parseYaml` runs the platform `JSON.parse` on the input text
(the source comment notes it uses "a simple JSON parser" in place of a
YAML parser) and then coerces with the legacy `FlowSchema.parse` (the
`./schema` import above), converting any thrown `SyntaxError`/`ZodError`
into a thrown `Error` whose message starts with
`Failed to parse flow YAML:`. `JSON.parse` is a JS builtin external to
the repository, so the embedding takes its outcome as the argument: a
`.error m` argument is a text on which `JSON.parse` threw with message
`m` — which is the case for every malformed text and also for every
well-formed YAML document that is not JSON. A thrown `Error` is modelled
as `Except.error`. -/

/-- Rendering of a `ZodError` in a template literal: one issue per
path/message pair. Models the string interpolation of the caught error. -/
def zodErrorString (issues : List ZodIssue) : String :=
  String.intercalate "; " (issues.map (fun i => zodPathJoin i.path ++ ": " ++ i.message))

/-- `FlowParser.parseYaml`. -/
def FlowParser.parseYaml (jsonParseOutcome : Except String Json) : Except String LegacyFlow :=
  match jsonParseOutcome with
  | .error e => .error ("Failed to parse flow YAML: " ++ e)
  | .ok parsed =>
    match LegacyFlowSchema parsed with
    | .ok f => .ok f
    | .error issues => .error ("Failed to parse flow YAML: " ++ zodErrorString issues)

/-- `FlowParser.parseJson`. -/
def FlowParser.parseJson (jsonParseOutcome : Except String Json) : Except String LegacyFlow :=
  match jsonParseOutcome with
  | .error e => .error ("Failed to parse flow JSON: " ++ e)
  | .ok parsed =>
    match LegacyFlowSchema parsed with
    | .ok f => .ok f
    | .error issues => .error ("Failed to parse flow JSON: " ++ zodErrorString issues)

/-- `FlowParser.parseObject`. -/
def FlowParser.parseObject (obj : Json) : Except String LegacyFlow :=
  match LegacyFlowSchema obj with
  | .ok f => .ok f
  | .error issues => .error ("Failed to parse flow object: " ++ zodErrorString issues)

/-- One entry of the `errors` array built by
`scripts/validate-examples.js`: the catch branch pushes a bare
`{message, code: 'PARSE_ERROR'}` object that has no `path` field, while
the normal branch forwards the validator's errors unchanged. -/
inductive ScriptError where
  | parseFailure (message : String) (code : String)
  | fromValidator (e : ValidationError)
deriving Repr, DecidableEq

/-- The per-file result object of `validate-examples.js` (the `file`
field, a filesystem path, is outside the embedding). -/
structure ScriptResult where
  valid : Bool
  errors : List ScriptError
  warnings : List ValidationWarning
deriving Repr, DecidableEq

/-- `validateYamlFile` of `scripts/validate-examples.js`: the argument
is the outcome of the external `yaml.load`; a load failure is caught
and reported as a single `PARSE_ERROR` finding with `valid: false` and
no warnings, otherwise `validateFlow` runs on the loaded tree. -/
def validateYamlFile (loaded : Except String Json) : ScriptResult :=
  match loaded with
  | .error m => { valid := false, errors := [.parseFailure m "PARSE_ERROR"], warnings := [] }
  | .ok data =>
    let validationResult := validateFlow data
    { valid := validationResult.valid
      errors := validationResult.errors.map ScriptError.fromValidator
      warnings := validationResult.warnings }

end FusionFlow

namespace FusionFlow

/-! ## Concrete documents used as witnesses and counterexamples -/

/-- A minimal well-formed step entry: a checkpoint step with the given
id, extended with extra fields (e.g. `next`, `error`). -/
def stepJson (id : String) (extra : List (String × Json)) : Json :=
  .obj ([("id", Json.str id), ("name", Json.str "S"),
    ("step", Json.obj [("type", Json.str "checkpoint"), ("name", Json.str "c")])] ++ extra)

/-- `{metadata: {name: "X"}, steps: []}` — an empty (but present) steps
list. -/
def docEmptySteps : Json :=
  .obj [("metadata", .obj [("name", .str "X")]), ("steps", .arr [])]

/-- `{metadata: {name: "X"}}` — the required `steps` attribute missing. -/
def docNoSteps : Json :=
  .obj [("metadata", .obj [("name", .str "X")])]

/-- Two steps sharing `id: "step1"`. -/
def docDuplicateIds : Json :=
  .obj [("metadata", .obj [("name", .str "X")]),
    ("steps", .arr [stepJson "step1" [], stepJson "step1" []])]

/-- A step with `next: ["ghost"]` and `error: "phantom"` where no step
has either id. -/
def docDanglingRefs : Json :=
  .obj [("metadata", .obj [("name", .str "X")]),
    ("steps", .arr [stepJson "s1" [("next", .arr [.str "ghost"]), ("error", .str "phantom")]])]

/-- A step `s1` whose `next` list and `error` field both name `s1`
itself. -/
def docSelfReference : Json :=
  .obj [("metadata", .obj [("name", .str "X")]),
    ("steps", .arr [stepJson "s1" [("next", .arr [.str "s1"]), ("error", .str "s1")]])]

/-- An otherwise valid flow with `observability.sampleRate = 1.5`. -/
def docSampleRateOutOfRange : Json :=
  .obj [("metadata", .obj [("name", .str "X")]),
    ("steps", .arr [stepJson "s1" []]),
    ("observability", .obj [("sampleRate", .num ⟨3, 2, by decide, by decide⟩)])]

/-- A branch step whose single condition targets `"ghost"`, an id no
step carries. -/
def docDanglingBranchTarget : Json :=
  .obj [("metadata", .obj [("name", .str "X")]),
    ("steps", .arr [.obj [("id", .str "s1"), ("name", .str "S"),
      ("step", .obj [("type", .str "branch"),
        ("conditions", .arr [.obj [("condition", .str "$.x"), ("nextStep", .str "ghost")]])])]])]

/-! ## General lemmas about the validator -/

/-- Both branches of `FlowValidator.validate` compute `valid` from the
error list alone. -/
lemma validateFlow_valid_eq_isEmpty (j : Json) :
    (validateFlow j).valid = (validateFlow j).errors.isEmpty := by
  unfold validateFlow FlowValidator.validate
  cases h : FlowSchema j <;> simp

/-- Shape of the result on the structural-failure branch. -/
lemma validateFlow_error_eq {j : Json} {es : List ZodIssue}
    (h : FlowSchema j = .error es) :
    validateFlow j =
      { valid := (addSchemaErrors es).isEmpty
        errors := addSchemaErrors es
        warnings := [] } := by
  unfold validateFlow FlowValidator.validate
  rw [h]

/-- The concatenated semantic findings on the structural-success
branch (the five rule families in the call order of
`FlowValidator.validate`). -/
def semanticErrors (f : Flow) : List ValidationError :=
  (validateMetadata f.metadata).1
    ++ validateTriggers (f.triggers.getD [])
    ++ validateSteps f.steps
    ++ validateStepReferences f.steps
    ++ validateObservability f.observability

/-- Shape of the result on the structural-success branch. -/
lemma validateFlow_ok_eq {j : Json} {f : Flow} (h : FlowSchema j = .ok f) :
    validateFlow j =
      { valid := (semanticErrors f).isEmpty
        errors := semanticErrors f
        warnings := (validateMetadata f.metadata).2 } := by
  unfold validateFlow FlowValidator.validate semanticErrors
  rw [h]

/-- A non-empty error list forces `valid = false`. -/
lemma validateFlow_valid_false_of_mem {j : Json} {e : ValidationError}
    (h : e ∈ (validateFlow j).errors) : (validateFlow j).valid = false := by
  rw [validateFlow_valid_eq_isEmpty]
  exact List.isEmpty_eq_false.mpr (List.ne_nil_of_mem h)

/-- Findings of `validateSteps` embed into the overall error list. -/
lemma mem_errors_of_mem_validateSteps {j : Json} {f : Flow} {e : ValidationError}
    (h : FlowSchema j = .ok f) (he : e ∈ validateSteps f.steps) :
    e ∈ (validateFlow j).errors := by
  rw [validateFlow_ok_eq h]
  simp only [semanticErrors, List.mem_append]
  tauto

/-- Findings of `validateStepReferences` embed into the overall error
list. -/
lemma mem_errors_of_mem_validateStepReferences {j : Json} {f : Flow} {e : ValidationError}
    (h : FlowSchema j = .ok f) (he : e ∈ validateStepReferences f.steps) :
    e ∈ (validateFlow j).errors := by
  rw [validateFlow_ok_eq h]
  simp only [semanticErrors, List.mem_append]
  tauto

end FusionFlow

namespace FusionFlow

/-- If some already-seen id occurs in the remaining steps, or the
remaining ids themselves repeat, the fold of
`FlowValidator.validateSteps` emits a `DUPLICATE_STEP_ID` error. -/
lemma validateStepsAux_duplicate (steps : List FlowStep) :
    ∀ (seen : List String) (i : Nat),
      ((∃ x ∈ steps.map FlowStep.id, x ∈ seen) ∨ ¬ (steps.map FlowStep.id).Nodup) →
      ∃ e ∈ validateStepsAux seen i steps, e.code = "DUPLICATE_STEP_ID" := by
  induction steps with
  | nil => intro seen i h; simp at h
  | cons s rest ih =>
    intro seen i h
    by_cases hmem : s.id ∈ seen
    · exact ⟨verr ("steps[" ++ toString i ++ "]" ++ ".id")
        ("Duplicate step ID: " ++ s.id) "DUPLICATE_STEP_ID",
        by simp [validateStepsAux, hmem], rfl⟩
    · have hrec : (∃ x ∈ rest.map FlowStep.id, x ∈ s.id :: seen)
          ∨ ¬ (rest.map FlowStep.id).Nodup := by
        rcases h with ⟨x, hx, hxs⟩ | hnd
        · rw [List.map_cons] at hx
          rcases List.mem_cons.mp hx with hx' | hx'
          · exact absurd (hx' ▸ hxs) hmem
          · exact Or.inl ⟨x, hx', List.mem_cons_of_mem _ hxs⟩
        · rw [List.map_cons, List.nodup_cons] at hnd
          rcases not_and_or.mp hnd with hnd' | hnd'
          · exact Or.inl ⟨s.id, not_not.mp hnd', List.mem_cons_self _ _⟩
          · exact Or.inr hnd'
      obtain ⟨e, he, hc⟩ := ih (s.id :: seen) (i + 1) hrec
      exact ⟨e, by simp only [validateStepsAux, List.mem_append]; tauto, hc⟩

/-- C1. For every input document, the result of `validateFlow` has
`valid == true` exactly when its error list is empty — `valid` is
computed from the error list alone (`getResult` sets it to
`errors.length === 0`), so warnings never affect it. -/
theorem validateFlow_valid_iff_no_errors (j : Json) :
    (validateFlow j).valid = (validateFlow j).errors.isEmpty
      ∧ ((validateFlow j).valid = true ↔ (validateFlow j).errors = []) := by
  refine ⟨validateFlow_valid_eq_isEmpty j, ?_⟩
  rw [validateFlow_valid_eq_isEmpty j, List.isEmpty_iff]

/-- C2. In every structurally valid flow in which two distinct step
positions carry the same id, `validateFlow` reports at least one
`DUPLICATE_STEP_ID` error and returns `valid == false`. -/
theorem validateFlow_duplicate_step_id (j : Json) (f : Flow) (i k : Nat)
    (h : FlowSchema j = Except.ok f)
    (hi : i < f.steps.length) (hk : k < f.steps.length) (hik : i ≠ k)
    (hid : (f.steps.get ⟨i, hi⟩).id = (f.steps.get ⟨k, hk⟩).id) :
    (∃ e ∈ (validateFlow j).errors, e.code = "DUPLICATE_STEP_ID")
      ∧ (validateFlow j).valid = false := by
  have hnd : ¬ (f.steps.map FlowStep.id).Nodup := by
    intro hnodup
    have hinj := List.nodup_iff_injective_get.mp hnodup
    have hlen : (f.steps.map FlowStep.id).length = f.steps.length := List.length_map _ _
    have : (⟨i, by rw [hlen]; exact hi⟩ : Fin (f.steps.map FlowStep.id).length)
        = ⟨k, by rw [hlen]; exact hk⟩ := by
      apply hinj
      simp only [List.get_eq_getElem, List.getElem_map]
      simpa [List.get_eq_getElem] using hid
    exact hik (by simpa using congrArg Fin.val this)
  obtain ⟨e, he, hc⟩ := validateStepsAux_duplicate f.steps [] 0 (Or.inr hnd)
  have hmem : e ∈ (validateFlow j).errors :=
    mem_errors_of_mem_validateSteps h he
  exact ⟨⟨e, hmem, hc⟩, validateFlow_valid_false_of_mem hmem⟩

/-- Witness for C2: the duplicate-id document evaluates as the theorem
states. -/
theorem validateFlow_duplicate_step_id_witness :
    (∃ e ∈ (validateFlow docDuplicateIds).errors, e.code = "DUPLICATE_STEP_ID")
      ∧ (validateFlow docDuplicateIds).valid = false :=
  validateFlow_duplicate_step_id docDuplicateIds
    { schemaUrl := "https://json-schema.org/draft/2020-12/schema"
      metadata := { name := "X", version := "1.0.0", description := none, tenant := none,
                    tags := [], owners := [], compliance := none, rbac := none,
                    createdAt := none, updatedAt := none, createdBy := none, updatedBy := none }
      triggers := none
      steps := [{ id := "step1", name := "S", description := none,
                  step := .checkpoint { name := "c", data := none },
                  transport := none, policies := none, next := none, error := none },
                { id := "step1", name := "S", description := none,
                  step := .checkpoint { name := "c", data := none },
                  transport := none, policies := none, next := none, error := none }]
      observability := none }
    0 1 rfl (by decide) (by decide) (by decide) rfl

/-- C4. Whenever structural (schema) validation fails, every error in
the result carries code `SCHEMA_VALIDATION_ERROR` and the warning list
is empty: no semantic rule family contributes any finding. -/
theorem validateFlow_schema_failure_only_schema_errors (j : Json) (es : List ZodIssue)
    (h : FlowSchema j = Except.error es) :
    (∀ e ∈ (validateFlow j).errors, e.code = "SCHEMA_VALIDATION_ERROR")
      ∧ (validateFlow j).warnings = [] := by
  rw [validateFlow_error_eq h]
  refine ⟨?_, rfl⟩
  intro e he
  simp only [addSchemaErrors, List.mem_map] at he
  obtain ⟨i, _, rfl⟩ := he
  rfl

/-- Witness for C4: a document missing the required `steps` attribute
fails structurally and its result consists of schema errors only. -/
theorem validateFlow_schema_failure_witness :
    (∀ e ∈ (validateFlow docNoSteps).errors, e.code = "SCHEMA_VALIDATION_ERROR")
      ∧ (validateFlow docNoSteps).warnings = [] :=
  validateFlow_schema_failure_only_schema_errors docNoSteps
    [⟨[.key "steps"], "Required"⟩] rfl

end FusionFlow

namespace FusionFlow

/-- A step with the `error` field present but equal to the empty
string, which no step id matches. -/
def docEmptyErrorRef : Json :=
  .obj [("metadata", .obj [("name", .str "X")]),
    ("steps", .arr [stepJson "s1" [("error", .str "")]])]

/-- A dangling entry of a `next` list is reported by the inner
`forEach` of `validateStepReferences`. -/
lemma validateNextRefsAux_dangling (ids : List String) (path : String) :
    ∀ (i : Nat) (ns : List String) (n : String), n ∈ ns → n ∉ ids →
      ∃ e ∈ validateNextRefsAux ids path i ns,
        e.code = "INVALID_NEXT_STEP_REFERENCE" := by
  intro i ns
  induction ns generalizing i with
  | nil => intro n hn; simp at hn
  | cons m rest ih =>
    intro n hn hnid
    rcases List.mem_cons.mp hn with rfl | hn'
    · exact ⟨verr (path ++ ".next[" ++ toString i ++ "]")
        ("Referenced step \"" ++ n ++ "\" does not exist") "INVALID_NEXT_STEP_REFERENCE",
        by simp [validateNextRefsAux, hnid], rfl⟩
    · obtain ⟨e, he, hc⟩ := ih (i + 1) n hn' hnid
      exact ⟨e, by simp only [validateNextRefsAux, List.mem_append]; tauto, hc⟩

/-- A step with a dangling `next` entry makes the outer `forEach` of
`validateStepReferences` emit `INVALID_NEXT_STEP_REFERENCE`. -/
lemma validateStepReferencesAux_dangling_next (ids : List String) :
    ∀ (i : Nat) (steps : List FlowStep) (s : FlowStep) (ns : List String) (n : String),
      s ∈ steps → s.next = some ns → n ∈ ns → n ∉ ids →
      ∃ e ∈ validateStepReferencesAux ids i steps,
        e.code = "INVALID_NEXT_STEP_REFERENCE" := by
  intro i steps
  induction steps generalizing i with
  | nil => intro s ns n hs; simp at hs
  | cons t rest ih =>
    intro s ns n hs hnext hn hnid
    rcases List.mem_cons.mp hs with rfl | hs'
    · obtain ⟨e, he, hc⟩ :=
        validateNextRefsAux_dangling ids ("steps[" ++ toString i ++ "]") 0 ns n hn hnid
      refine ⟨e, ?_, hc⟩
      simp only [validateStepReferencesAux, hnext, List.mem_append]
      tauto
    · obtain ⟨e, he, hc⟩ := ih (i + 1) s ns n hs' hnext hn hnid
      exact ⟨e, by simp only [validateStepReferencesAux, List.mem_append]; tauto, hc⟩

/-- A step with a non-empty dangling `error` identifier makes
`validateStepReferences` emit `INVALID_ERROR_STEP_REFERENCE`. -/
lemma validateStepReferencesAux_dangling_error (ids : List String) :
    ∀ (i : Nat) (steps : List FlowStep) (s : FlowStep) (t : String),
      s ∈ steps → s.error = some t → t ≠ "" → t ∉ ids →
      ∃ e ∈ validateStepReferencesAux ids i steps,
        e.code = "INVALID_ERROR_STEP_REFERENCE" := by
  intro i steps
  induction steps generalizing i with
  | nil => intro s t hs; simp at hs
  | cons u rest ih =>
    intro s t hs herr hne hnid
    rcases List.mem_cons.mp hs with rfl | hs'
    · refine ⟨verr ("steps[" ++ toString i ++ "]" ++ ".error")
        ("Referenced error step \"" ++ t ++ "\" does not exist")
        "INVALID_ERROR_STEP_REFERENCE", ?_, rfl⟩
      have hempty : t.isEmpty = false := by
        cases ht : t.isEmpty
        · rfl
        · exact absurd ((String.isEmpty_iff t).mp ht) hne
      simp only [validateStepReferencesAux, herr, hempty, hnid, List.mem_append]
      simp
    · obtain ⟨e, he, hc⟩ := ih (i + 1) s t hs' herr hne hnid
      exact ⟨e, by simp only [validateStepReferencesAux, List.mem_append]; tauto, hc⟩

/-- Counterexample to C3 as stated: the validator's own structural
coercion (`FlowSchema.safeParse`, the one `validateFlow` runs) accepts
`docEmptyErrorRef` as a flow whose single step has the `error`
identifier present (`some ""`) and not occurring among the step ids
(`["s1"]`), yet `validateFlow` emits no finding at all and returns
`valid == true` — the JS guard `step.error &&` skips an empty
identifier. -/
theorem validateFlow_dangling_error_counterexample :
    ((FlowSchema docEmptyErrorRef).toOption.map
        (fun f => f.steps.map FlowStep.error)) = some [some ""]
      ∧ ((FlowSchema docEmptyErrorRef).toOption.map
          (fun f => f.steps.map FlowStep.id)) = some ["s1"]
      ∧ (validateFlow docEmptyErrorRef).errors = []
      ∧ (validateFlow docEmptyErrorRef).valid = true := by
  refine ⟨by decide, by decide, by decide, by decide⟩

/-- C3 (amended): in every structurally valid flow, a `next` entry that
matches no step id yields `INVALID_NEXT_STEP_REFERENCE`, and an `error`
identifier that is present **and non-empty** but matches no step id
yields `INVALID_ERROR_STEP_REFERENCE`; in either case
`valid == false`. (An empty-string `error` identifier is skipped.) -/
theorem validateFlow_dangling_references (j : Json) (f : Flow)
    (h : FlowSchema j = Except.ok f) :
    (∀ s ∈ f.steps, ∀ ns, s.next = some ns → ∀ n ∈ ns,
      n ∉ f.steps.map FlowStep.id →
      (∃ e ∈ (validateFlow j).errors, e.code = "INVALID_NEXT_STEP_REFERENCE")
        ∧ (validateFlow j).valid = false)
    ∧ (∀ s ∈ f.steps, ∀ t, s.error = some t → t ≠ "" →
      t ∉ f.steps.map FlowStep.id →
      (∃ e ∈ (validateFlow j).errors, e.code = "INVALID_ERROR_STEP_REFERENCE")
        ∧ (validateFlow j).valid = false) := by
  constructor
  · intro s hs ns hnext n hn hnid
    obtain ⟨e, he, hc⟩ := validateStepReferencesAux_dangling_next
      (f.steps.map FlowStep.id) 0 f.steps s ns n hs hnext hn hnid
    have hmem : e ∈ (validateFlow j).errors :=
      mem_errors_of_mem_validateStepReferences h he
    exact ⟨⟨e, hmem, hc⟩, validateFlow_valid_false_of_mem hmem⟩
  · intro s hs t herr hne hnid
    obtain ⟨e, he, hc⟩ := validateStepReferencesAux_dangling_error
      (f.steps.map FlowStep.id) 0 f.steps s t hs herr hne hnid
    have hmem : e ∈ (validateFlow j).errors :=
      mem_errors_of_mem_validateStepReferences h he
    exact ⟨⟨e, hmem, hc⟩, validateFlow_valid_false_of_mem hmem⟩

/-- The single step of `flowDanglingRefs`. -/
def danglingStep : FlowStep :=
  { id := "s1", name := "S", description := none,
    step := .checkpoint { name := "c", data := none },
    transport := none, policies := none,
    next := some ["ghost"], error := some "phantom" }

/-- The typed flow that `docDanglingRefs` parses to. -/
def flowDanglingRefs : Flow :=
  { schemaUrl := "https://json-schema.org/draft/2020-12/schema"
    metadata := { name := "X", version := "1.0.0", description := none, tenant := none,
                  tags := [], owners := [], compliance := none, rbac := none,
                  createdAt := none, updatedAt := none, createdBy := none, updatedBy := none }
    triggers := none
    steps := [danglingStep]
    observability := none }

/-- Witness for C3: `docDanglingRefs` has a step with `next: ["ghost"]`
and `error: "phantom"`, both dangling, and both reference errors are
reported with `valid == false`. -/
theorem validateFlow_dangling_references_witness :
    ((∃ e ∈ (validateFlow docDanglingRefs).errors,
        e.code = "INVALID_NEXT_STEP_REFERENCE")
      ∧ (validateFlow docDanglingRefs).valid = false)
    ∧ ((∃ e ∈ (validateFlow docDanglingRefs).errors,
        e.code = "INVALID_ERROR_STEP_REFERENCE")
      ∧ (validateFlow docDanglingRefs).valid = false) := by
  have hp := validateFlow_dangling_references docDanglingRefs flowDanglingRefs rfl
  refine ⟨hp.1 danglingStep (by simp [flowDanglingRefs]) ["ghost"] rfl
      "ghost" (by decide) (by decide),
    hp.2 danglingStep (by simp [flowDanglingRefs]) "phantom" rfl
      (by decide) (by decide)⟩

/-- Counterexample to C5 as stated: a document whose `steps` attribute
is the empty list is structurally accepted (`z.array` has no
non-emptiness constraint) and `validateFlow` returns `valid == true`. -/
theorem validateFlow_empty_steps_counterexample :
    (validateFlow docEmptySteps).valid = true := by decide

/-- C5 (amended): the `steps` attribute is required — a document
without it fails structural validation — but it may be empty: on
`steps: []` the validator runs no step rule and returns `valid == true`
with no errors (only the `OWNERS_MISSING` warning here). -/
theorem validateFlow_empty_steps_amended :
    (validateFlow docNoSteps).valid = false
      ∧ (validateFlow docEmptySteps).valid = true
      ∧ (validateFlow docEmptySteps).errors = []
      ∧ (validateFlow docEmptySteps).warnings.map (fun w => w.code) = ["OWNERS_MISSING"] := by
  refine ⟨by decide, by decide, by decide, by decide⟩

end FusionFlow

namespace FusionFlow

/-- If every `next` entry of a step list resolves in `ids` and every
present `error` identifier resolves in `ids`, the reference walk emits
nothing. -/
lemma validateNextRefsAux_nil (ids : List String) (path : String) :
    ∀ (i : Nat) (ns : List String), (∀ n ∈ ns, n ∈ ids) →
      validateNextRefsAux ids path i ns = [] := by
  intro i ns
  induction ns generalizing i with
  | nil => intro _; rfl
  | cons m rest ih =>
    intro hall
    have hm : m ∈ ids := hall m (List.mem_cons_self _ _)
    have hrest := ih (i + 1) (fun n hn => hall n (List.mem_cons_of_mem _ hn))
    simp [validateNextRefsAux, hm, hrest]

/-- The reference walk is silent on a step list whose references all
resolve. -/
lemma validateStepReferencesAux_nil (ids : List String) :
    ∀ (i : Nat) (steps : List FlowStep),
      (∀ s ∈ steps, (∀ ns, s.next = some ns → ∀ n ∈ ns, n ∈ ids)
        ∧ (∀ t, s.error = some t → t ∈ ids)) →
      validateStepReferencesAux ids i steps = [] := by
  intro i steps
  induction steps generalizing i with
  | nil => intro _; rfl
  | cons s rest ih =>
    intro hall
    have hs := hall s (List.mem_cons_self _ _)
    have hrest := ih (i + 1) (fun u hu => hall u (List.mem_cons_of_mem _ hu))
    have hnext : (match s.next with
        | some ns => validateNextRefsAux ids ("steps[" ++ toString i ++ "]") 0 ns
        | none => []) = [] := by
      cases hn : s.next with
      | none => rfl
      | some ns => exact validateNextRefsAux_nil ids _ 0 ns (hs.1 ns hn)
    have herr : (match s.error with
        | some e =>
          if !e.isEmpty && e ∉ ids then
            [verr ("steps[" ++ toString i ++ "]" ++ ".error")
              ("Referenced error step \"" ++ e ++ "\" does not exist")
              "INVALID_ERROR_STEP_REFERENCE"]
          else []
        | none => []) = [] := by
      cases he : s.error with
      | none => rfl
      | some t =>
        have ht : t ∈ ids := hs.2 t he
        simp [ht]
    simp only [validateStepReferencesAux]
    rw [hnext, herr, hrest]
    rfl

/-- Counterexample to C6 as stated: in `docSelfReference` the step `s1`
lists its own id in `next` and as its `error` handler, yet
`validateFlow` reports no error and returns `valid == true`. -/
theorem validateFlow_self_reference_counterexample :
    (validateFlow docSelfReference).valid = true
      ∧ (validateFlow docSelfReference).errors = [] := by
  refine ⟨by decide, by decide⟩

/-- C6 (amended): self-references are permitted. The id set that
`validateStepReferences` resolves against is built from all steps and
therefore contains each step's own id, so a step whose `next` list or
`error` field names itself produces no reference finding, and such a
flow can be fully valid. -/
theorem validateFlow_self_reference_amended :
    (∀ (steps : List FlowStep),
      (∀ s ∈ steps,
        (∀ ns, s.next = some ns → ∀ n ∈ ns, n ∈ steps.map FlowStep.id)
          ∧ (∀ t, s.error = some t → t ∈ steps.map FlowStep.id)) →
      validateStepReferences steps = [])
    ∧ (validateFlow docSelfReference).errors = []
    ∧ (validateFlow docSelfReference).valid = true := by
  refine ⟨?_, by decide, by decide⟩
  intro steps hall
  exact validateStepReferencesAux_nil (steps.map FlowStep.id) 0 steps hall

/-- The single step of the self-referencing flow. -/
def selfRefStep : FlowStep :=
  { id := "s1", name := "S", description := none,
    step := .checkpoint { name := "c", data := none },
    transport := none, policies := none,
    next := some ["s1"], error := some "s1" }

/-- Witness for C6 (amended): the self-referencing step list passes
the reference walk with no findings. -/
theorem validateFlow_self_reference_amended_witness :
    validateStepReferences [selfRefStep] = [] := by
  apply validateFlow_self_reference_amended.1
  intro s hs
  rw [List.mem_singleton] at hs
  subst hs
  refine ⟨?_, ?_⟩
  · intro ns hns n hn
    cases hns
    simpa [selfRefStep] using hn
  · intro t ht
    cases ht
    simp [selfRefStep]

end FusionFlow

namespace FusionFlow

/-- An error in the second argument of `zapp` makes the whole
application an error with a non-empty issue list. -/
lemma zapp_error_right {α β : Type} (f : ZRes (α → β)) {a : ZRes α}
    {es : List ZodIssue} (h : a = .error es) (hne : es ≠ []) :
    ∃ es', zapp f a = .error es' ∧ es' ≠ [] := by
  subst h
  cases f with
  | ok g => exact ⟨es, rfl, hne⟩
  | error e1 => exact ⟨e1 ++ es, rfl, by simp [hne]⟩

/-- An error in the first argument of `zapp` makes the whole
application an error with a non-empty issue list. -/
lemma zapp_error_left {α β : Type} {f : ZRes (α → β)} (a : ZRes α)
    {es : List ZodIssue} (h : f = .error es) (hne : es ≠ []) :
    ∃ es', zapp f a = .error es' ∧ es' ≠ [] := by
  subst h
  cases a with
  | ok x => exact ⟨es, rfl, hne⟩
  | error e2 => exact ⟨es ++ e2, rfl, by simp [hne]⟩

/-- `prefixIssues` preserves failure and non-emptiness. -/
lemma prefixIssues_error {α : Type} (e : PathElem) {es : List ZodIssue} (hne : es ≠ []) :
    ∃ es', prefixIssues (α := α) e (.error es) = .error es' ∧ es' ≠ [] := by
  refine ⟨es.map (fun i => ZodIssue.mk (e :: i.path) i.message), ?_, by simpa using hne⟩
  rfl

/-- A number strictly above the upper bound fails
`z.number().min(lo).max(hi)` with one issue. -/
lemma znumMinMax_gt_hi (lo hi : ℚ) {q : ℚ} (hlo : lo ≤ hi) (hq : hi < q) :
    ∃ es, znumMinMax lo hi (Json.num q) = .error es ∧ es ≠ [] := by
  have hnotlt : ¬ (q < lo) := by linarith
  refine ⟨[⟨[], "Number must be less than or equal to " ++ toString hi⟩], ?_, by simp⟩
  simp [znumMinMax, znumber, hnotlt, hq]

/-- Every error that `addSchemaErrors` produces carries code
`SCHEMA_VALIDATION_ERROR`. -/
lemma addSchemaErrors_code {es : List ZodIssue} :
    ∀ e ∈ addSchemaErrors es, e.code = "SCHEMA_VALIDATION_ERROR" := by
  intro e he
  simp only [addSchemaErrors, List.mem_map] at he
  obtain ⟨i, _, rfl⟩ := he
  rfl

/-- A document whose `observability.sampleRate` value exceeds 1 fails
structural validation: the issue arises inside `ObservabilitySchema`
and propagates through `FlowSchema`. -/
lemma FlowSchema_sampleRate_too_big {o oo : List (String × Json)} {q : ℚ}
    (hobs : getField o "observability" = some (.obj oo))
    (hsr : getField oo "sampleRate" = some (.num q)) (hq : 1 < q) :
    ∃ es, FlowSchema (.obj o) = .error es ∧ es ≠ [] := by
  obtain ⟨es0, hes0, hne0⟩ := znumMinMax_gt_hi 0 1 (by norm_num) hq
  have hdef : defField oo "sampleRate" (znumMinMax 0 1) 1
      = prefixIssues (.key "sampleRate") (znumMinMax 0 1 (.num q)) := by
    unfold defField
    rw [hsr]
  obtain ⟨es1, hes1, hne1⟩ := prefixIssues_error (α := ℚ) (.key "sampleRate") hne0
  have hdef' : defField oo "sampleRate" (znumMinMax 0 1) 1 = .error es1 := by
    rw [hdef, hes0, hes1]
  obtain ⟨es2, hes2, hne2⟩ := zapp_error_right
    (zapp (zpure Observability.mk) (optField oo "traceId" TraceConfigSchema)) hdef' hne1
  obtain ⟨es3, hes3, hne3⟩ := zapp_error_left
    (optField oo "payloadSampling" PayloadSamplingSchema) hes2 hne2
  obtain ⟨es4, hes4, hne4⟩ := zapp_error_left
    (optField oo "metrics" MetricsConfigSchema) hes3 hne3
  obtain ⟨es5, hes5, hne5⟩ := zapp_error_left
    (optField oo "logs" LogsConfigSchema) hes4 hne4
  have hObs : ObservabilitySchema (.obj oo) = .error es5 := hes5
  have hOpt : optField o "observability" ObservabilitySchema
      = prefixIssues (.key "observability") (Except.map some (ObservabilitySchema (.obj oo))) := by
    unfold optField
    rw [hobs]
  have hMap : Except.map (some (α := Observability)) (ObservabilitySchema (.obj oo))
      = .error es5 := by rw [hObs]; rfl
  obtain ⟨es6, hes6, hne6⟩ := prefixIssues_error (α := Option Observability)
    (.key "observability") hne5
  have hOpt' : optField o "observability" ObservabilitySchema = .error es6 := by
    rw [hOpt, hMap, hes6]
  obtain ⟨es7, hes7, hne7⟩ := zapp_error_right
    (zapp (zapp (zapp (zapp (zpure Flow.mk)
        (defField o "$schema" zstring "https://json-schema.org/draft/2020-12/schema"))
      (reqField o "metadata" MetadataSchema))
      (optField o "triggers" (zarray TriggerSchema)))
      (reqField o "steps" (zarray FlowStepSchema))) hOpt' hne6
  exact ⟨es7, hes7, hne7⟩

/-- Counterexample to C7 as stated: on `docSampleRateOutOfRange`
(`observability.sampleRate = 1.5`) the only error carries code
`SCHEMA_VALIDATION_ERROR`; no `OBSERVABILITY_SAMPLE_RATE_INVALID`
finding is produced, because the zod bound `min(0).max(1)` rejects the
document before the semantic rule can run. -/
theorem validateFlow_sample_rate_counterexample :
    (validateFlow docSampleRateOutOfRange).errors.map (fun e => e.code)
        = ["SCHEMA_VALIDATION_ERROR"]
      ∧ ((validateFlow docSampleRateOutOfRange).errors.any
          (fun e => e.code == "OBSERVABILITY_SAMPLE_RATE_INVALID")) = false
      ∧ (validateFlow docSampleRateOutOfRange).valid = false := by
  refine ⟨by decide, by decide, by decide⟩

/-- C7 (amended): a document whose `observability.sampleRate` exceeds 1
(such as 1.5) is rejected during the structural phase: `validateFlow`
returns `valid == false` with every error carrying
`SCHEMA_VALIDATION_ERROR`, and in particular no error carries
`OBSERVABILITY_SAMPLE_RATE_INVALID` (that semantic check is unreachable
for out-of-range values). -/
theorem validateFlow_sample_rate_amended (o oo : List (String × Json)) (q : ℚ)
    (hobs : getField o "observability" = some (.obj oo))
    (hsr : getField oo "sampleRate" = some (.num q)) (hq : 1 < q) :
    (validateFlow (.obj o)).valid = false
      ∧ (∀ e ∈ (validateFlow (.obj o)).errors, e.code = "SCHEMA_VALIDATION_ERROR")
      ∧ ∀ e ∈ (validateFlow (.obj o)).errors,
          e.code ≠ "OBSERVABILITY_SAMPLE_RATE_INVALID" := by
  obtain ⟨es, hes, hne⟩ := FlowSchema_sampleRate_too_big hobs hsr hq
  rw [validateFlow_error_eq hes]
  refine ⟨?_, addSchemaErrors_code, ?_⟩
  · simp only [addSchemaErrors]
    rw [List.isEmpty_eq_false]
    simpa using hne
  · intro e he
    rw [addSchemaErrors_code e he]
    decide

/-- Witness for C7 (amended): the theorem applies to the concrete
document with `sampleRate = 1.5`. -/
theorem validateFlow_sample_rate_amended_witness :
    (validateFlow docSampleRateOutOfRange).valid = false
      ∧ (∀ e ∈ (validateFlow docSampleRateOutOfRange).errors,
          e.code = "SCHEMA_VALIDATION_ERROR")
      ∧ ∀ e ∈ (validateFlow docSampleRateOutOfRange).errors,
          e.code ≠ "OBSERVABILITY_SAMPLE_RATE_INVALID" :=
  validateFlow_sample_rate_amended
    [("metadata", .obj [("name", .str "X")]),
      ("steps", .arr [stepJson "s1" []]),
      ("observability", .obj [("sampleRate", .num ⟨3, 2, by decide, by decide⟩)])]
    [("sampleRate", .num ⟨3, 2, by decide, by decide⟩)]
    ⟨3, 2, by decide, by decide⟩ rfl rfl (by decide)

end FusionFlow

namespace FusionFlow

/-- Counterexample to C8 as stated: on a malformed input text (one on
which the platform `JSON.parse` throws, here with message
`SyntaxError: Unexpected end of JSON input`), `FlowParser.parseYaml`
propagates a **thrown** `Error` — modelled as `Except.error` — rather
than returning the failure as data in a `ValidationResult`; no
`PARSE_ERROR` finding is produced by the core library. -/
theorem parseYaml_throws_counterexample :
    FlowParser.parseYaml (Except.error "SyntaxError: Unexpected end of JSON input")
      = Except.error "Failed to parse flow YAML: SyntaxError: Unexpected end of JSON input" :=
  rfl

/-- C8 (amended): the core parser reports a malformed input by
throwing an `Error` prefixed `Failed to parse flow YAML:` (a catchable
fault, with no partial result), and it is the CI wrapper
`validateYamlFile` of `scripts/validate-examples.js` — outside the
library — that catches the throw and reports it as a single finding
with code `PARSE_ERROR` and no path, with `valid == false` and no
warnings. -/
theorem parse_failure_reporting_amended (m : String) :
    FlowParser.parseYaml (Except.error m)
        = Except.error ("Failed to parse flow YAML: " ++ m)
      ∧ validateYamlFile (Except.error m)
        = { valid := false
            errors := [ScriptError.parseFailure m "PARSE_ERROR"]
            warnings := [] }
      ∧ (validateYamlFile (Except.error m)).errors.length = 1 :=
  ⟨rfl, rfl, rfl⟩

/-- The typed flow that the minimal empty-steps document coerces to. -/
def flowEmptySteps : Flow :=
  { schemaUrl := "https://json-schema.org/draft/2020-12/schema"
    metadata := { name := "X", version := "1.0.0", description := none, tenant := none,
                  tags := [], owners := [], compliance := none, rbac := none,
                  createdAt := none, updatedAt := none, createdBy := none, updatedBy := none }
    triggers := none
    steps := []
    observability := none }

/-- C9 evaluated at the failing input: the well-formed YAML text

```
metadata:
  name: X
steps: []
```

conforms to the Flow schema of the Type Model (its generic tree is
`docEmptySteps`, which `FlowSchema.safeParse` coerces successfully —
second conjunct), yet `FlowParser.parseYaml` fails on it twice over:
the raw text goes to `JSON.parse` — not to a YAML parser — so the call
throws `SyntaxError` (first conjunct, with the V8 message for a
non-JSON first token) and the wrapped error propagates instead of the
typed `Flow`; and even handed the already-parsed tree, the parser
coerces against the legacy `./schema` `FlowSchema` (nodes/edges
vocabulary), so `parseObject` throws `name`/`nodes`/`edges` `Required`
(third conjunct). -/
theorem parseYaml_yaml_input_fails :
    FlowParser.parseYaml
        (Except.error "SyntaxError: Unexpected token m in JSON at position 0")
      = Except.error
          "Failed to parse flow YAML: SyntaxError: Unexpected token m in JSON at position 0"
      ∧ FlowSchema docEmptySteps = Except.ok flowEmptySteps
      ∧ FlowParser.parseObject docEmptySteps
        = Except.error
            "Failed to parse flow object: name: Required; nodes: Required; edges: Required" := by
  refine ⟨rfl, rfl, rfl⟩

end FusionFlow

namespace FusionFlow

/-! ## Branch targets are never resolved (C10)

The `nextStep` names inside a branch step's `conditions` (and its
`default`) are consulted by no rule except the emptiness test
`!condition.nextStep` of `validateBranchStep`; in particular
`validateStepReferences` never looks at them. The retargeting
transformation below replaces every branch target by an arbitrary
emptiness-preserving renaming and provably leaves the whole semantic
finding list unchanged. -/

/-- Rename one branch condition's target. -/
def retargetCondition (g : String → String) (c : BranchCondition) : BranchCondition :=
  { c with nextStep := g c.nextStep }

/-- Rename every branch target (conditions and default) of a step
payload; non-branch payloads are untouched. -/
def retargetStepBody (g : String → String) : Step → Step
  | .branch b => .branch { conditions := b.conditions.map (retargetCondition g),
                           default := b.default.map g }
  | s => s

/-- Rename every branch target inside one step envelope. -/
def retargetStep (g : String → String) (s : FlowStep) : FlowStep :=
  { s with step := retargetStepBody g s.step }

/-- Rename every branch target of a flow. -/
def retargetFlow (g : String → String) (f : Flow) : Flow :=
  { f with steps := f.steps.map (retargetStep g) }

lemma validateBranchConditionsAux_retarget {g : String → String}
    (hg : ∀ t, (g t).isEmpty = t.isEmpty) (path : String) :
    ∀ (i : Nat) (cs : List BranchCondition),
      validateBranchConditionsAux path i (cs.map (retargetCondition g))
        = validateBranchConditionsAux path i cs := by
  intro i cs
  induction cs generalizing i with
  | nil => rfl
  | cons c rest ih =>
    simp only [List.map_cons, validateBranchConditionsAux, retargetCondition, hg c.nextStep,
      ih (i + 1)]

lemma validateStepConfig_retarget {g : String → String}
    (hg : ∀ t, (g t).isEmpty = t.isEmpty) (st : Step) (path : String) :
    validateStepConfig (retargetStepBody g st) path = validateStepConfig st path := by
  cases st with
  | branch b =>
    simp only [retargetStepBody, validateStepConfig, validateBranchStep,
      validateBranchConditionsAux_retarget hg]
    cases b.conditions <;> rfl
  | connector s => rfl
  | map s => rfl
  | script s => rfl
  | enrich s => rfl
  | retry s => rfl
  | dlq s => rfl
  | throttle s => rfl
  | checkpoint s => rfl
  | circuitBreaker s => rfl

lemma validateStep_retarget {g : String → String}
    (hg : ∀ t, (g t).isEmpty = t.isEmpty) (s : FlowStep) (path : String) :
    validateStep (retargetStep g s) path = validateStep s path := by
  simp only [validateStep, retargetStep, validateStepConfig_retarget hg]

/-- Retargeting touches only the step payload, never the id. -/
lemma retargetStep_id (g : String → String) (s : FlowStep) :
    (retargetStep g s).id = s.id := rfl

lemma validateStepsAux_retarget {g : String → String}
    (hg : ∀ t, (g t).isEmpty = t.isEmpty) :
    ∀ (seen : List String) (i : Nat) (steps : List FlowStep),
      validateStepsAux seen i (steps.map (retargetStep g))
        = validateStepsAux seen i steps := by
  intro seen i steps
  induction steps generalizing seen i with
  | nil => rfl
  | cons s rest ih =>
    simp only [List.map_cons, validateStepsAux, retargetStep_id,
      validateStep_retarget hg, ih (s.id :: seen) (i + 1)]

lemma map_id_retarget (g : String → String) (steps : List FlowStep) :
    (steps.map (retargetStep g)).map FlowStep.id = steps.map FlowStep.id := by
  rw [List.map_map]
  rfl

lemma validateStepReferencesAux_retarget (g : String → String) (ids : List String) :
    ∀ (i : Nat) (steps : List FlowStep),
      validateStepReferencesAux ids i (steps.map (retargetStep g))
        = validateStepReferencesAux ids i steps := by
  intro i steps
  induction steps generalizing i with
  | nil => rfl
  | cons s rest ih =>
    simp only [List.map_cons, validateStepReferencesAux, ih (i + 1)]
    rfl

/-- The whole semantic finding list is invariant under renaming branch
targets (as long as emptiness is preserved, which is all the branch
rule ever looks at). -/
lemma semanticErrors_retarget {g : String → String}
    (hg : ∀ t, (g t).isEmpty = t.isEmpty) (f : Flow) :
    semanticErrors (retargetFlow g f) = semanticErrors f := by
  have h1 : validateSteps (f.steps.map (retargetStep g)) = validateSteps f.steps :=
    validateStepsAux_retarget hg [] 0 f.steps
  have h2 : validateStepReferences (f.steps.map (retargetStep g))
      = validateStepReferences f.steps := by
    unfold validateStepReferences
    rw [map_id_retarget, validateStepReferencesAux_retarget]
  simp only [semanticErrors, retargetFlow, h1, h2]

/-- C10. Branch targets are never resolved against step identifiers:
replacing every branch `nextStep`/`default` by any other non-empty
name leaves the semantic findings unchanged (so no finding can depend
on whether a target matches a step id), and concretely the flow
`docDanglingBranchTarget` — whose branch condition targets `"ghost"`,
an id carried by no step — validates with no errors and
`valid == true`. -/
theorem branch_targets_never_resolved :
    (∀ (g : String → String) (f : Flow), (∀ t, (g t).isEmpty = t.isEmpty) →
      semanticErrors (retargetFlow g f) = semanticErrors f)
    ∧ (validateFlow docDanglingBranchTarget).errors = []
    ∧ (validateFlow docDanglingBranchTarget).valid = true := by
  refine ⟨fun g f hg => semanticErrors_retarget hg f, by decide, by decide⟩

/-- The typed flow that `docDanglingBranchTarget` parses to. -/
def branchGhostFlow : Flow :=
  { schemaUrl := "https://json-schema.org/draft/2020-12/schema"
    metadata := { name := "X", version := "1.0.0", description := none, tenant := none,
                  tags := [], owners := [], compliance := none, rbac := none,
                  createdAt := none, updatedAt := none, createdBy := none, updatedBy := none }
    triggers := none
    steps := [{ id := "s1", name := "S", description := none,
                step := .branch { conditions := [{ condition := "$.x", nextStep := "ghost" }],
                                  default := none },
                transport := none, policies := none, next := none, error := none }]
    observability := none }

/-- Witness for C10: retargeting the ghost branch flow through a
concrete emptiness-preserving renaming leaves its semantic findings
unchanged. -/
theorem branch_targets_never_resolved_witness :
    semanticErrors
        (retargetFlow (fun t => if t.isEmpty then t else "elsewhere") branchGhostFlow)
      = semanticErrors branchGhostFlow :=
  branch_targets_never_resolved.1 (fun t => if t.isEmpty then t else "elsewhere")
    branchGhostFlow
    (by
      intro t
      cases h : t.isEmpty
      · simp [h]
        decide
      · simp [h])

end FusionFlow
